import Mathlib

/-
Verification of the PSM simulation engine (src/simulation.py, "PSM Simulation
Engine — v6") against its natural-language specification.

Embedding conventions:
* Python floats are modelled as exact rationals (ℚ); identities that the spec
  states "to floating-point tolerance" hold exactly over ℚ.
* The real-valued growth multiplier `(1 + annual_growth_pct/100) ** (month/12)`
  is embedded through its monthly factor: the configuration stores
  `monthly_growth_factor`, standing for `(1 + annual_growth_pct/100)^(1/12)`,
  so the source's growth multiplier for month index m is
  `monthly_growth_factor ^ m`.  (The twelfth root itself is irrational for the
  default 10% growth, so the monthly factor is taken as the configuration
  input; every other formula is unchanged.)
* Python dictionaries keyed by int are modelled as functions `ℕ → Option ℚ`
  (for `scheduled_anchor_hires`) or total functions `ℕ → ℚ` with default 0
  (for the `volume_shocks` dict).
* Fallible code is modelled with `Except String`: in legacy mode
  (`use_load_band = False`) the Python source reads the local variable
  `_pre_flu_handled` which is never assigned on that path, raising
  `UnboundLocalError` in the first simulated month.  The embedding models the
  unassigned local as `Option Bool := none` and the read as an error.
* The reporting-only `summary` dict of `simulate_policy` (which uses
  `np.mean` over possibly-empty slices) and the reporting-only
  `marginal_analysis` attachment (`compare_marginal_fte`) are not modelled:
  no verified claim mentions them, and they do not feed back into any
  simulated quantity.  `simulate_stress` (a one-line wrapper building a
  shock dict) is likewise not needed by any claim.
-/

/-- Table MONTH_TO_QUARTER from the source. -/
def MONTH_TO_QUARTER : List ℕ := [0,0,0, 1,1,1, 2,2,2, 3,3,3]

/-- Python `max(l, default=d)`: the maximum of a list, or `d` when empty
(the default is not itself a lower bound on a nonempty list). -/
def listMaxD (l : List ℚ) (d : ℚ) : ℚ :=
  match l with
  | [] => d
  | x :: xs => xs.foldl max x

/-- Round-half-to-even on ℚ, the rounding used by Python `round`. -/
def roundHalfEven (x : ℚ) : ℤ :=
  let f := ⌊x⌋
  if x - f < 1/2 then f
  else if 1/2 < x - f then f + 1
  else if f % 2 = 0 then f else f + 1

/-- Python `round(x, 2)`. -/
def round2 (x : ℚ) : ℚ := (roundHalfEven (x * 100) : ℚ) / 100

/-- Semantics of np.arange(lo, hi, step) over ℚ for positive step:
`ceil((hi - lo)/step)` points `lo + k*step`. -/
def np_arange (lo hi step : ℚ) : List ℚ :=
  if 0 < step then
    (List.range (⌈(hi - lo) / step⌉.toNat)).map (fun k => lo + (k : ℚ) * step)
  else []

-- ════════════════════════════════════════════════════════════════════════════
-- SUPPORT STAFF CONFIG
-- ════════════════════════════════════════════════════════════════════════════

structure SupportStaffConfig where
  physician_rate_hr   : ℚ := 13579/100
  app_rate_hr         : ℚ := 62
  psr_rate_hr         : ℚ := 2123/100
  ma_rate_hr          : ℚ := 2414/100
  rt_rate_hr          : ℚ := 3136/100
  supervisor_rate_hr  : ℚ := 2825/100
  ma_ratio            : ℚ := 1
  psr_ratio           : ℚ := 1
  rt_flat_fte         : ℚ := 1
  supervisor_hrs_mo   : ℚ := 0
  supervisor_admin_mo : ℚ := 0
  benefits_load_pct   : ℚ := 3/10
  bonus_pct           : ℚ := 1/10
  ot_sick_pct         : ℚ := 1/25
deriving DecidableEq, Inhabited

def SupportStaffConfig.total_multiplier (s : SupportStaffConfig) : ℚ :=
  1 + s.benefits_load_pct + s.bonus_pct + s.ot_sick_pct

def SupportStaffConfig.monthly_support_cost (s : SupportStaffConfig)
    (avg_providers_on_floor shift_hours operating_days_per_week : ℚ) : ℚ :=
  let operating_days_mo := operating_days_per_week * (52/12)
  let hours_per_staff_mo := shift_hours * operating_days_mo
  let ma_cost  := avg_providers_on_floor * s.ma_ratio  * s.ma_rate_hr  * hours_per_staff_mo * s.total_multiplier
  let psr_cost := avg_providers_on_floor * s.psr_ratio * s.psr_rate_hr * hours_per_staff_mo * s.total_multiplier
  let rt_cost  := s.rt_flat_fte * s.rt_rate_hr * hours_per_staff_mo * s.total_multiplier
  let phys_sup_cost := if 0 < s.supervisor_hrs_mo
    then s.supervisor_hrs_mo * s.physician_rate_hr * s.total_multiplier else 0
  let sup_admin_cost := if 0 < s.supervisor_admin_mo
    then s.supervisor_admin_mo * s.supervisor_rate_hr * s.total_multiplier else 0
  ma_cost + psr_cost + rt_cost + phys_sup_cost + sup_admin_cost

-- ════════════════════════════════════════════════════════════════════════════
-- CLINIC CONFIG
-- ════════════════════════════════════════════════════════════════════════════

structure ClinicConfig where
  base_visits_per_day : ℚ := 80
  budgeted_patients_per_provider_per_day : ℚ := 36
  peak_factor : ℚ := 11/10
  quarterly_volume_impact : List ℚ := [1/5, 0, -1/10, 1/20]
  /-- Embeds `(1 + annual_growth_pct/100)^(1/12)` (see header comment); the
  source default of 10%/yr growth has an irrational monthly factor, so the
  embedding default is the no-growth factor 1. -/
  monthly_growth_factor : ℚ := 1
  operating_days_per_week : ℚ := 7   -- integer-valued in the source
  shifts_per_day          : ℚ := 1   -- integer-valued in the source
  shift_hours             : ℚ := 12
  fte_shifts_per_week     : ℚ := 3
  fte_fraction            : ℚ := 9/10
  load_band_lo       : ℚ := 30
  load_band_hi       : ℚ := 38
  load_winter_target : ℚ := 36
  use_load_band      : Bool := true
  min_coverage_fte : ℚ := 233/100
  annual_provider_cost_perm : ℚ := 200000
  annual_provider_cost_flex : ℚ := 280000
  net_revenue_per_visit     : ℚ := 110
  swb_target_per_visit      : ℚ := 32
  support : SupportStaffConfig := {}
  days_to_sign        : ℕ := 30
  days_to_credential  : ℕ := 60
  days_to_independent : ℕ := 90
  flu_anchor_month    : ℕ := 12
  annual_attrition_pct     : ℚ := 18
  turnover_replacement_pct : ℚ := 40
  overload_attrition_factor : ℚ := 3/2
  summer_shed_floor_pct : ℚ := 17/20
  ramp_months       : ℕ := 0
  ramp_productivity : List ℚ := []
  monthly_fixed_overhead : ℚ := 0
  burnout_pct_per_red_month       : ℚ := 25
  overstaff_penalty_per_fte_month : ℚ := 3000
  swb_violation_penalty           : ℚ := 500000
  yellow_threshold_above : ℚ := 0
  red_threshold_above    : ℚ := 4
deriving DecidableEq, Inhabited

def ClinicConfig.monthly_attrition_rate (c : ClinicConfig) : ℚ :=
  c.annual_attrition_pct / 100 / 12

def ClinicConfig.turnover_replacement_cost_per_provider (c : ClinicConfig) : ℚ :=
  c.annual_provider_cost_perm * (c.turnover_replacement_pct / 100)

def ClinicConfig.burnout_penalty_per_red_month (c : ClinicConfig) : ℚ :=
  c.annual_provider_cost_perm * (c.burnout_pct_per_red_month / 100)

def ClinicConfig.shift_slots_per_week (c : ClinicConfig) : ℚ :=
  c.operating_days_per_week * c.shifts_per_day

def ClinicConfig.shifts_per_week_per_fte (c : ClinicConfig) : ℚ :=
  c.fte_shifts_per_week / c.fte_fraction

def ClinicConfig.fte_per_shift_slot (c : ClinicConfig) : ℚ :=
  if c.fte_shifts_per_week ≤ 0 then 1
  else c.operating_days_per_week / c.fte_shifts_per_week

def ClinicConfig.seasonality_index (c : ClinicConfig) : List ℚ :=
  (List.range 12).map
    (fun m => 1 + c.quarterly_volume_impact.getD (MONTH_TO_QUARTER.getD m 0) 0)

-- ════════════════════════════════════════════════════════════════════════════
-- DEMAND COMPUTATION
-- ════════════════════════════════════════════════════════════════════════════

/-- The tuple returned by `compute_demand`, with named components. -/
structure DemandOut where
  visits       : ℚ
  seasonal     : ℚ
  providers    : ℚ
  fte_required : ℚ
deriving DecidableEq, Inhabited

def compute_demand (month_idx : ℕ) (cfg : ClinicConfig) (volume_shock : ℚ) :
    DemandOut :=
  let cal := month_idx % 12
  let seasonal_mult := cfg.seasonality_index.getD cal 0
  let growth_mult := cfg.monthly_growth_factor ^ month_idx
  let visits := cfg.base_visits_per_day * seasonal_mult * cfg.peak_factor *
    growth_mult * (1 + volume_shock)
  let providers_per_shift := visits / cfg.budgeted_patients_per_provider_per_day
  let fte_required := providers_per_shift * cfg.fte_per_shift_slot
  { visits := visits, seasonal := seasonal_mult,
    providers := providers_per_shift, fte_required := fte_required }

def fte_for_load_target (visits_per_day load_target : ℚ) (cfg : ClinicConfig) : ℚ :=
  if load_target ≤ 0 then 0
  else (visits_per_day / load_target) * cfg.fte_per_shift_slot

-- ════════════════════════════════════════════════════════════════════════════
-- FTE ROUNDING
-- ════════════════════════════════════════════════════════════════════════════

def _FTE_INCREMENTS : List ℚ := [1/4, 3/10, 1/2, 3/5, 3/4, 9/10, 1, 5/4, 3/2, 2]

/-- Rounding of hire sizes: first increment at least `raw`; above 2.0, ceil to the
nearest half (`round(math.ceil(raw*2)/2, 2)` — the trailing 2-decimal round is
the identity on exact halves). -/
def _round_up_fte (raw : ℚ) : ℚ :=
  if raw ≤ 0 then 0
  else
    match _FTE_INCREMENTS.find? (fun inc => raw ≤ inc) with
    | some inc => inc
    | none => (⌈raw * 2⌉ : ℚ) / 2

-- ════════════════════════════════════════════════════════════════════════════
-- HIRE EVENT
-- ════════════════════════════════════════════════════════════════════════════

structure HireEvent where
  simulation_month  : ℕ
  calendar_month    : ℕ
  year              : ℕ
  fte_hired         : ℚ
  mode              : String
  post_by_month     : ℤ
  post_by_year      : ℤ
  independent_month : ℕ
  independent_year  : ℕ
deriving DecidableEq, Inhabited

/-- Hire logging.  The two normalising `while` loops of the source are written
in closed form: `t` is the number of `+12` steps the first loop performs, and
the second loop is ordinary base-12 carrying (all call sites pass
`cal_month ≥ 1`). -/
def _log_hire (hire_events : List HireEvent) (sim_m cal_month year : ℕ)
    (fte_hired : ℚ) (mode : String) (lead_months : ℕ) (cfg : ClinicConfig) :
    List HireEvent :=
  let d : ℤ := (cal_month : ℤ) - (lead_months : ℤ)
  let t : ℤ := if d ≤ 0 then ((1 - d) + 11) / 12 else 0
  let post_cal_month : ℤ := d + 12 * t
  let post_year : ℤ := max 1 ((year : ℤ) - t)
  let s : ℕ := cal_month + cfg.ramp_months
  let indep_cal : ℕ := (s - 1) % 12 + 1
  let indep_year : ℕ := year + (s - 1) / 12
  hire_events ++ [{
    simulation_month := sim_m + 1,
    calendar_month := cal_month,
    year := year,
    fte_hired := fte_hired,
    mode := mode,
    post_by_month := post_cal_month,
    post_by_year := post_year,
    independent_month := indep_cal,
    independent_year := indep_year }]

-- ════════════════════════════════════════════════════════════════════════════
-- MONTH RESULT / POLICY RESULT
-- ════════════════════════════════════════════════════════════════════════════

structure MonthResult where
  month          : ℕ
  calendar_month : ℕ
  year           : ℕ
  quarter        : ℕ
  demand_visits_per_day      : ℚ
  seasonal_multiplier        : ℚ
  demand_providers_per_shift : ℚ
  demand_fte_required        : ℚ
  paid_fte      : ℚ
  effective_fte : ℚ
  flex_fte      : ℚ
  providers_on_floor              : ℚ
  shift_coverage_gap              : ℚ
  patients_per_provider_per_shift : ℚ
  zone        : String
  hiring_mode : String
  load_band_lo : ℚ
  load_band_hi : ℚ
  within_band  : Bool
  effective_attrition_rate : ℚ
  overload_attrition_delta : ℚ
  permanent_cost    : ℚ
  flex_cost         : ℚ
  support_cost      : ℚ
  burnout_penalty   : ℚ
  overstaff_penalty : ℚ
  lost_revenue      : ℚ
  turnover_events   : ℚ
  turnover_cost     : ℚ
  cumulative_score  : ℚ
  revenue_captured    : ℚ
  visits_captured     : ℚ
  throughput_factor   : ℚ
  ebitda_contribution : ℚ
  cumulative_ebitda   : ℚ
deriving DecidableEq, Inhabited

/-- The `ebitda_summary` dict of `simulate_policy`, with named fields. -/
structure EbitdaSummary where
  revenue      : ℚ
  swb          : ℚ
  flex         : ℚ
  turnover     : ℚ
  burnout      : ℚ
  fixed        : ℚ
  ebitda       : ℚ
  capture_rate : ℚ
deriving DecidableEq, Inhabited

/-- Result of one full run.  The reporting-only `summary` dict and the
`marginal_analysis` attachment are not modelled (see header comment). -/
structure PolicyResult where
  base_fte   : ℚ
  winter_fte : ℚ
  req_post_month : ℤ
  months      : List MonthResult
  hire_events : List HireEvent
  total_score : ℚ
  annual_swb_per_visit : ℚ
  swb_violation : Bool
  ebitda_summary : Option EbitdaSummary
deriving DecidableEq, Inhabited

-- ════════════════════════════════════════════════════════════════════════════
-- CALENDAR WINDOWS
-- ════════════════════════════════════════════════════════════════════════════

/-- Lead months: `int(np.ceil(total_lead_days / 30))` for the nonnegative day counts. -/
def leadMonthsOf (cfg : ClinicConfig) : ℕ :=
  (cfg.days_to_sign + cfg.days_to_credential + cfg.days_to_independent + 29) / 30

/-- Flu season: anchor month + 3 months forward. -/
def fluMonths (cfg : ClinicConfig) : List ℕ :=
  (List.range 4).map
    (fun o => ((((cfg.flu_anchor_month : ℤ) - 1 + (o : ℤ)) % 12) + 1).toNat)

/-- Months from which a hire placed now is independent by the anchor month. -/
def preFluMonths (cfg : ClinicConfig) (lead_months : ℕ) : List ℕ :=
  (List.range lead_months).map
    (fun o => ((((cfg.flu_anchor_month : ℤ) - 1 - ((o : ℤ) + 1)) % 12) + 1).toNat)

def summerMonths : List ℕ := [7, 8]

/-- The three months before the flu anchor, minus the summer-shed months. -/
def activePreFluMonths (cfg : ClinicConfig) : List ℕ :=
  ((List.range 3).map
    (fun o => ((((cfg.flu_anchor_month : ℤ) - 1 - ((o : ℤ) + 1)) % 12) + 1).toNat)).filter
    (fun x => !(summerMonths.contains x))

-- ════════════════════════════════════════════════════════════════════════════
-- SIMULATION STATE
-- ════════════════════════════════════════════════════════════════════════════

/-- The loop-carried local state of `simulate_policy`. -/
structure SimState where
  paid_fte     : ℚ
  ramp_cohorts : List (ℕ × ℚ)           -- (months_remaining, fte_size)
  deferred_fte : ℚ
  scheduled_anchor_hires : ℕ → Option ℚ  -- year → fte
  months       : List MonthResult
  hire_events  : List HireEvent
  total_score            : ℚ
  total_swb_cost         : ℚ
  total_simulated_visits : ℚ
  total_ebitda           : ℚ

/-- Initial state: in load-band mode the seed headcount comes from month-0
demand at the midpoint of the load band; legacy mode seeds at `base_fte`. -/
def initState (base_fte : ℚ) (cfg : ClinicConfig) : SimState :=
  let start_visits := (compute_demand 0 cfg 0).visits
  { paid_fte :=
      if cfg.use_load_band then
        fte_for_load_target start_visits ((cfg.load_band_lo + cfg.load_band_hi) / 2) cfg
      else base_fte,
    ramp_cohorts := [],
    deferred_fte := 0,
    scheduled_anchor_hires := fun _ => none,
    months := [], hire_events := [],
    total_score := 0, total_swb_cost := 0,
    total_simulated_visits := 0, total_ebitda := 0 }

-- ════════════════════════════════════════════════════════════════════════════
-- ATTRITION (overload-responsive)
-- ════════════════════════════════════════════════════════════════════════════

/-- Prospective ramp drag from existing cohorts. -/
def prospectiveDrag (cfg : ClinicConfig) (cohorts : List (ℕ × ℚ)) : ℚ :=
  (cohorts.map (fun c =>
    if cfg.ramp_months - c.1 < cfg.ramp_productivity.length then
      c.2 * (1 - cfg.ramp_productivity.getD (cfg.ramp_months - c.1) 0)
    else 0)).sum

def estEffectiveFte (cfg : ClinicConfig) (paid : ℚ) (cohorts : List (ℕ × ℚ)) : ℚ :=
  max 0 (paid - prospectiveDrag cfg cohorts)

/-- The guarded workload estimate used by the attrition block
(`current_load`): visits over estimated providers, falling back to budget
when the provider estimate is not positive. -/
def estLoad (cfg : ClinicConfig) (visits paid : ℚ) (cohorts : List (ℕ × ℚ)) : ℚ :=
  let current_providers :=
    if 0 < cfg.fte_per_shift_slot then
      estEffectiveFte cfg paid cohorts / cfg.fte_per_shift_slot
    else 0
  if 0 < current_providers then visits / current_providers
  else cfg.budgeted_patients_per_provider_per_day

/-- The `effective_monthly_attrition` formula. -/
def effAttrRate (cfg : ClinicConfig) (visits paid : ℚ) (cohorts : List (ℕ × ℚ)) : ℚ :=
  let budget := cfg.budgeted_patients_per_provider_per_day
  let excess_pct := max 0 ((estLoad cfg visits paid cohorts - budget) / budget)
  cfg.monthly_attrition_rate * (1 + cfg.overload_attrition_factor * excess_pct)

/-- All cohort sizes are nonnegative. -/
def cohortsNonneg (l : List (ℕ × ℚ)) : Prop := ∀ c ∈ l, 0 ≤ c.2

/-- All scheduled anchor-hire amounts are nonnegative. -/
def schedNonneg (s : ℕ → Option ℚ) : Prop := ∀ y, 0 ≤ ((s y).getD 0)

-- ════════════════════════════════════════════════════════════════════════════
-- TARGET PHASE (lines 434–521 of the source)
-- ════════════════════════════════════════════════════════════════════════════

structure TargetOut where
  paid    : ℚ
  cohorts : List (ℕ × ℚ)
  sched   : ℕ → Option ℚ
  events  : List HireEvent
  target  : ℚ
  /-- Here `some b` means the Python local `_pre_flu_handled` was assigned `b`;
  `none` means it was never assigned (legacy mode). -/
  pfh : Option Bool
  summer_floor : ℚ

/-- The active pre-flu branch (lines 453–495 of the source): December-demand
sizing, the attrition bridge hire, and the scheduled anchor hire. -/
def targetPhaseActive (winter_fte : ℚ) (cfg : ClinicConfig) (st : SimState)
    (m : ℕ) (lead_months : ℕ) : TargetOut :=
  let cal := m % 12 + 1
  let year := m / 12 + 1
  let flu_season_length := 4
  let months_to_anchor :=
    ((((cfg.flu_anchor_month : ℤ) - (cal : ℤ)) % 12)).toNat
  let months_to_flu_end := months_to_anchor + flu_season_length - 1
  let flu_peak_demand := listMaxD
    ((List.range flu_season_length).map
      (fun off => (compute_demand (m + months_to_anchor + off) cfg 0).visits)) 0
  let band_winter := fte_for_load_target flu_peak_demand cfg.load_winter_target cfg
  let att_buffer := band_winter * cfg.monthly_attrition_rate * (months_to_flu_end : ℚ)
  let target0 := max (band_winter + att_buffer) (max winter_fte cfg.min_coverage_fte)
  let rate1 := 1 - cfg.monthly_attrition_rate
  let bridge_min_fte := listMaxD
    ((List.range (months_to_anchor - 1)).map
      (fun k => (compute_demand (m + (k + 1)) cfg 0).fte_required / rate1 ^ (k + 1))) 0
  let pb : ℚ × List (ℕ × ℚ) × List HireEvent :=
    if st.paid_fte < bridge_min_fte then
      let bh := _round_up_fte (bridge_min_fte - st.paid_fte)
      (st.paid_fte + bh,
       st.ramp_cohorts ++ [(cfg.ramp_months, bh)],
       _log_hire st.hire_events m cal year bh "growth" lead_months cfg)
    else (st.paid_fte, st.ramp_cohorts, st.hire_events)
  let already := (st.scheduled_anchor_hires year).getD 0
  let fte_at_anchor := pb.1 * rate1 ^ months_to_anchor
  let effective_dec := fte_at_anchor + already
  let sw : (ℕ → Option ℚ) × List HireEvent :=
    if effective_dec < target0 then
      let nh := _round_up_fte (target0 - effective_dec)
      (fun y => if y = year then some (already + nh)
                else st.scheduled_anchor_hires y,
       _log_hire pb.2.2 m cfg.flu_anchor_month year nh "winter_ramp" lead_months cfg)
    else (st.scheduled_anchor_hires, pb.2.2)
  { paid := pb.1, cohorts := pb.2.1, sched := sw.1, events := sw.2,
    target := pb.1, pfh := some true, summer_floor := 0 }

/-- The two load-band target branches (active pre-flu look-ahead vs. winter
target sizing). -/
def targetPhaseCore (winter_fte : ℚ) (cfg : ClinicConfig) (st : SimState)
    (m : ℕ) (visits : ℚ) (lead_months : ℕ) : TargetOut :=
  let cal := m % 12 + 1
  if cal ∈ activePreFluMonths cfg then
    targetPhaseActive winter_fte cfg st m lead_months
  else
    { paid := st.paid_fte, cohorts := st.ramp_cohorts,
      sched := st.scheduled_anchor_hires, events := st.hire_events,
      target := max (fte_for_load_target visits cfg.load_winter_target cfg)
                    (max winter_fte cfg.min_coverage_fte),
      pfh := some false, summer_floor := 0 }

def targetPhase (base_fte winter_fte : ℚ) (cfg : ClinicConfig) (st : SimState)
    (m : ℕ) (visits : ℚ) (lead_months : ℕ) : TargetOut :=
  let cal := m % 12 + 1
  if cfg.use_load_band then
    let core := targetPhaseCore winter_fte cfg st m visits lead_months
    let floor_fte := fte_for_load_target visits cfg.load_band_hi cfg
    let summer_floor := max cfg.min_coverage_fte (floor_fte * cfg.summer_shed_floor_pct)
    let target2 :=
      if ¬(cal ∈ fluMonths cfg ∨ cal ∈ preFluMonths cfg lead_months ∨ cal ∈ summerMonths) then
        max (fte_for_load_target visits ((cfg.load_band_lo + cfg.load_band_hi) / 2) cfg)
            (max base_fte cfg.min_coverage_fte)
      else if cal ∈ summerMonths then summer_floor
      else core.target
    { core with target := target2, summer_floor := summer_floor }
  else
    { paid := st.paid_fte, cohorts := st.ramp_cohorts,
      sched := st.scheduled_anchor_hires, events := st.hire_events,
      target :=
        if cal ∈ fluMonths cfg then winter_fte
        else if cal ∈ summerMonths then base_fte * cfg.summer_shed_floor_pct
        else base_fte,
      pfh := none,
      summer_floor := base_fte * cfg.summer_shed_floor_pct }

-- ════════════════════════════════════════════════════════════════════════════
-- HIRING DECISION (lines 553–618 of the source)
-- ════════════════════════════════════════════════════════════════════════════

structure HireOut where
  paid     : ℚ
  cohorts  : List (ℕ × ℚ)
  deferred : ℚ
  events   : List HireEvent
  mode     : String

def hiringPhase (cfg : ClinicConfig) (m cal year lead_months : ℕ)
    (in_flu in_summer in_active pfh : Bool)
    (target summer_floor attrition_events : ℚ)
    (paid deferred : ℚ) (cohorts : List (ℕ × ℚ)) (events : List HireEvent) :
    HireOut :=
  if pfh then
    { paid := paid, cohorts := cohorts, deferred := deferred, events := events,
      mode := "winter_ramp" }
  else if in_summer then
    if paid < summer_floor then
      let nh := _round_up_fte (summer_floor - paid)
      { paid := paid + nh, cohorts := cohorts ++ [(cfg.ramp_months, nh)],
        deferred := deferred,
        events := _log_hire events m cal year nh "floor_protect" lead_months cfg,
        mode := "floor_protect" }
    else
      { paid := paid, cohorts := cohorts, deferred := deferred, events := events,
        mode := "shed_pause" }
  else if paid < target then
    let flu_emergency := in_flu && decide (paid < cfg.min_coverage_fte * (21/20))
    if in_flu && !flu_emergency then
      { paid := paid, cohorts := cohorts, deferred := max deferred (target - paid),
        events := events, mode := "deferred" }
    else
      let raw_hires := max (target - paid) deferred
      let nh := _round_up_fte raw_hires
      let mode := if in_active then "winter_ramp"
                  else if attrition_events * (21/20) < raw_hires then "growth"
                  else "attrition_replace"
      { paid := paid + nh, cohorts := cohorts ++ [(cfg.ramp_months, nh)],
        deferred := 0,
        events := _log_hire events m cal year nh mode lead_months cfg,
        mode := mode }
  else if target * (21/20) < paid && !in_flu then
    if 0 < deferred && !in_flu then
      let nh := _round_up_fte deferred
      { paid := paid + nh, cohorts := cohorts ++ [(cfg.ramp_months, nh)],
        deferred := 0,
        events := _log_hire events m cal year nh "growth" lead_months cfg,
        mode := "growth" }
    else
      { paid := paid, cohorts := cohorts, deferred := deferred, events := events,
        mode := "shed_passive" }
  else
    if 0 < deferred && !in_flu then
      let nh := _round_up_fte deferred
      { paid := paid + nh, cohorts := cohorts ++ [(cfg.ramp_months, nh)],
        deferred := 0,
        events := _log_hire events m cal year nh "growth" lead_months cfg,
        mode := "growth" }
    else
      { paid := paid, cohorts := cohorts, deferred := deferred, events := events,
        mode := "maintain" }

-- ════════════════════════════════════════════════════════════════════════════
-- RAMP DRAG (lines 620–632 of the source)
-- ════════════════════════════════════════════════════════════════════════════

/-- One pass over the cohorts: accumulate this month's drag, decrement each
cohort, keep survivors. -/
def rampPhase (cfg : ClinicConfig) (cohorts : List (ℕ × ℚ)) :
    ℚ × List (ℕ × ℚ) :=
  cohorts.foldl
    (fun acc c =>
      let contrib :=
        if cfg.ramp_months - c.1 < cfg.ramp_productivity.length then
          c.2 * (1 - cfg.ramp_productivity.getD (cfg.ramp_months - c.1) 0)
        else 0
      let ml := c.1 - 1
      (acc.1 + contrib, if 0 < ml then acc.2 ++ [(ml, c.2)] else acc.2))
    (0, [])

-- ════════════════════════════════════════════════════════════════════════════
-- MONTHLY STEP
-- ════════════════════════════════════════════════════════════════════════════

/-- One iteration of the month loop of `simulate_policy`, assuming the
`_pre_flu_handled` read succeeds (its value is `tp.pfh.getD false`, which in
every succeeding run equals the assigned value). -/
def stepCore (base_fte winter_fte : ℚ) (cfg : ClinicConfig)
    (volume_shocks : ℕ → ℚ) (lead_months : ℕ) (st : SimState) (m : ℕ) :
    SimState :=
  let cal := m % 12 + 1
  let year := m / 12 + 1
  let quarter := MONTH_TO_QUARTER.getD (cal - 1) 0 + 1
  let in_flu := decide (cal ∈ fluMonths cfg)
  let in_summer := decide (cal ∈ summerMonths)
  let in_active := decide (cal ∈ activePreFluMonths cfg)
  let shock := volume_shocks (m + 1)
  let d := compute_demand m cfg shock
  let budget := cfg.budgeted_patients_per_provider_per_day
  let fte_per_slot := cfg.fte_per_shift_slot
  let tp := targetPhase base_fte winter_fte cfg st m d.visits lead_months
  let effective_monthly_attrition := effAttrRate cfg d.visits tp.paid tp.cohorts
  let overload_attrition_delta := effective_monthly_attrition - cfg.monthly_attrition_rate
  let attrition_events := tp.paid * effective_monthly_attrition
  let paid2 := max cfg.min_coverage_fte (tp.paid - attrition_events)
  let turnover_events := attrition_events
  -- scheduled anchor hires start work in the anchor month (dict ``pop``)
  let anchorAmt := if cal = cfg.flu_anchor_month then (tp.sched year).getD 0 else 0
  let sched2 : ℕ → Option ℚ :=
    fun y => if cal = cfg.flu_anchor_month ∧ y = year then none else tp.sched y
  let paid3 := paid2 + anchorAmt
  let hp := hiringPhase cfg m cal year lead_months in_flu in_summer in_active
    (tp.pfh.getD false) tp.target tp.summer_floor attrition_events
    paid3 st.deferred_fte tp.cohorts tp.events
  let rd := rampPhase cfg hp.cohorts
  let effective_fte := max 0 (hp.paid - rd.1)
  let providers_on_floor := if 0 < fte_per_slot then effective_fte / fte_per_slot else 0
  let shift_coverage_gap := d.providers - providers_on_floor
  let pts_per_prov := if 0 < providers_on_floor then d.visits / providers_on_floor else 9999
  let zone :=
    if pts_per_prov ≤ budget + cfg.yellow_threshold_above then "Green"
    else if pts_per_prov ≤ budget + cfg.red_threshold_above then "Yellow"
    else "Red"
  let within_band := decide (cfg.load_band_lo ≤ pts_per_prov ∧ pts_per_prov ≤ cfg.load_band_hi)
  let overload_pts := max 0 (pts_per_prov - (budget + cfg.yellow_threshold_above))
  let flex_fte :=
    if 0 < overload_pts ∧ 0 < providers_on_floor then
      ((overload_pts * providers_on_floor) / budget) * fte_per_slot
    else 0
  let overstaff_providers := max 0 (providers_on_floor - d.providers)
  let perm_cost := hp.paid * (cfg.annual_provider_cost_perm / 12)
  let flex_cost := flex_fte * (cfg.annual_provider_cost_flex / 12)
  let support_cost := cfg.support.monthly_support_cost providers_on_floor
    cfg.shift_hours cfg.operating_days_per_week
  let burnout_pen :=
    if 0 < overload_pts then
      cfg.burnout_penalty_per_red_month *
        (overload_pts / max cfg.red_threshold_above 1) ^ 2
    else 0
  let overstaff_pen := overstaff_providers * fte_per_slot * cfg.overstaff_penalty_per_fte_month
  let throughput_factor :=
    if zone = "Green" then 1 else if zone = "Yellow" then 19/20 else 17/20
  let operating_days_mo := cfg.operating_days_per_week * (52/12)
  let visits_captured := d.visits * operating_days_mo * throughput_factor
  let revenue_captured := visits_captured * cfg.net_revenue_per_visit
  let lost_revenue := (d.visits * operating_days_mo - visits_captured) * cfg.net_revenue_per_visit
  let turnover_cost0 := turnover_events * cfg.turnover_replacement_cost_per_provider
  let turnover_cost :=
    if zone = "Yellow" ∨ zone = "Red" then turnover_cost0 * (13/10) else turnover_cost0
  let fixed_cost := cfg.monthly_fixed_overhead
  let ebitda_month := revenue_captured - (perm_cost + support_cost) - flex_cost
    - turnover_cost - burnout_pen - fixed_cost
  let month_score := perm_cost + flex_cost + support_cost + burnout_pen
    + overstaff_pen + lost_revenue + turnover_cost
  { paid_fte := hp.paid,
    ramp_cohorts := rd.2,
    deferred_fte := hp.deferred,
    scheduled_anchor_hires := sched2,
    months := st.months ++ [{
      month := m + 1, calendar_month := cal, year := year, quarter := quarter,
      demand_visits_per_day := d.visits,
      seasonal_multiplier := d.seasonal,
      demand_providers_per_shift := d.providers,
      demand_fte_required := max d.fte_required cfg.min_coverage_fte,
      paid_fte := hp.paid,
      effective_fte := effective_fte,
      flex_fte := flex_fte,
      providers_on_floor := providers_on_floor,
      shift_coverage_gap := shift_coverage_gap,
      patients_per_provider_per_shift := pts_per_prov,
      zone := zone,
      hiring_mode := hp.mode,
      load_band_lo := cfg.load_band_lo,
      load_band_hi := cfg.load_band_hi,
      within_band := within_band,
      effective_attrition_rate := effective_monthly_attrition,
      overload_attrition_delta := overload_attrition_delta,
      permanent_cost := perm_cost,
      flex_cost := flex_cost,
      support_cost := support_cost,
      burnout_penalty := burnout_pen,
      overstaff_penalty := overstaff_pen,
      lost_revenue := lost_revenue,
      turnover_events := turnover_events,
      turnover_cost := turnover_cost,
      cumulative_score := st.total_score + month_score,
      revenue_captured := revenue_captured,
      visits_captured := visits_captured,
      throughput_factor := throughput_factor,
      ebitda_contribution := ebitda_month,
      cumulative_ebitda := st.total_ebitda + ebitda_month }],
    hire_events := hp.events,
    total_score := st.total_score + month_score,
    total_swb_cost := st.total_swb_cost + perm_cost + support_cost,
    total_simulated_visits := st.total_simulated_visits + d.visits * operating_days_mo,
    total_ebitda := st.total_ebitda + ebitda_month }

/-- One month of `simulate_policy`.  Reading `_pre_flu_handled` when it was
never assigned (legacy mode) raises `UnboundLocalError` in the source. -/
def stepMonth (base_fte winter_fte : ℚ) (cfg : ClinicConfig)
    (volume_shocks : ℕ → ℚ) (lead_months : ℕ) (st : SimState) (m : ℕ) :
    Except String SimState :=
  match (targetPhase base_fte winter_fte cfg st m
          (compute_demand m cfg (volume_shocks (m + 1))).visits lead_months).pfh with
  | none =>
    .error "UnboundLocalError: local variable _pre_flu_handled referenced before assignment"
  | some _ =>
    .ok (stepCore base_fte winter_fte cfg volume_shocks lead_months st m)

-- ════════════════════════════════════════════════════════════════════════════
-- HIRE EVENT CONSOLIDATION (post-pass)
-- ════════════════════════════════════════════════════════════════════════════

/-- Post-pass on hire events, including the `used` bookkeeping array of the
source.  A small peak-season hire is relabelled `per_diem` only when a
not-yet-used, distinct, same-year hire of at least its size exists within a
two-month window; otherwise the event is appended unchanged. -/
def consolidate_hire_events (hire_events : List HireEvent)
    (small_threshold : ℚ) (peak_months : List ℕ) : List HireEvent :=
  if hire_events = [] then hire_events
  else
    let n := hire_events.length
    let out := (List.range n).foldl
      (fun (acc : List Bool × List HireEvent) i =>
        let used := acc.1
        let result := acc.2
        if used.getD i false then acc
        else
          match hire_events.get? i with
          | none => acc
          | some h =>
            if h.fte_hired ≤ small_threshold ∧ h.calendar_month ∈ peak_months then
              let absorber := (List.range n).find? (fun j =>
                (!(used.getD j false)) && (j != i) &&
                  (match hire_events.get? j with
                   | some h2 =>
                     (h2.year == h.year) &&
                     decide (((h2.calendar_month : ℤ) - (h.calendar_month : ℤ)).natAbs ≤ 2) &&
                     decide (h.fte_hired ≤ h2.fte_hired)
                   | none => false))
              match absorber with
              | some _ =>
                let relabeled := { h with mode := "per_diem", fte_hired := _round_up_fte h.fte_hired }
                (used.set i true, result ++ [relabeled])
              | none => (used.set i true, result ++ [h])
            else (used.set i true, result ++ [h]))
      (List.replicate n false, [])
    out.2

-- ════════════════════════════════════════════════════════════════════════════
-- FULL POLICY SIMULATION
-- ════════════════════════════════════════════════════════════════════════════

/-- Post-loop aggregation of `simulate_policy` (SWB check, EBITDA waterfall,
hire-event consolidation). -/
def finalize (base_fte winter_fte : ℚ) (cfg : ClinicConfig) (st : SimState) :
    PolicyResult :=
  let lead_months := leadMonthsOf cfg
  let req_post_month : ℤ := max 1 ((cfg.flu_anchor_month : ℤ) - (lead_months : ℤ))
  let total_captured_visits := (st.months.map (fun mo => mo.visits_captured)).sum
  let annual_swb_cost := st.total_swb_cost / 3
  let annual_visits := total_captured_visits / 3
  let annual_swb := if 0 < annual_visits then annual_swb_cost / annual_visits else 0
  let swb_violation := decide (cfg.swb_target_per_visit < annual_swb)
  let total_score :=
    if swb_violation then st.total_score + cfg.swb_violation_penalty else st.total_score
  let total_revenue_captured := (st.months.map (fun mo => mo.revenue_captured)).sum
  let total_swb_3yr := (st.months.map (fun mo => mo.permanent_cost + mo.support_cost)).sum
  let total_flex_3yr := (st.months.map (fun mo => mo.flex_cost)).sum
  let total_turnover_3yr := (st.months.map (fun mo => mo.turnover_cost)).sum
  let total_burnout_3yr := (st.months.map (fun mo => mo.burnout_penalty)).sum
  let total_fixed_3yr := cfg.monthly_fixed_overhead * 36
  let operating_days_mo := cfg.operating_days_per_week * (52/12)
  let total_visits_demanded :=
    (st.months.map (fun mo => mo.demand_visits_per_day * operating_days_mo)).sum
  { base_fte := base_fte, winter_fte := winter_fte,
    req_post_month := req_post_month,
    months := st.months,
    hire_events := consolidate_hire_events st.hire_events (1/5) (fluMonths cfg),
    total_score := total_score,
    annual_swb_per_visit := annual_swb,
    swb_violation := swb_violation,
    ebitda_summary := some {
      revenue := total_revenue_captured,
      swb := total_swb_3yr,
      flex := total_flex_3yr,
      turnover := total_turnover_3yr,
      burnout := total_burnout_3yr,
      fixed := total_fixed_3yr,
      ebitda := st.total_ebitda,
      capture_rate :=
        if 0 < total_visits_demanded then total_captured_visits / total_visits_demanded
        else 1 } }

def simulate_policy (base_fte winter_fte : ℚ) (cfg : ClinicConfig)
    (horizon_months : ℕ) (volume_shocks : ℕ → ℚ) :
    Except String PolicyResult :=
  Except.map (finalize base_fte winter_fte cfg)
    ((List.range horizon_months).foldlM
      (stepMonth base_fte winter_fte cfg volume_shocks (leadMonthsOf cfg))
      (initState base_fte cfg))

-- ════════════════════════════════════════════════════════════════════════════
-- OPTIMIZER
-- ════════════════════════════════════════════════════════════════════════════

/-- The selection key of the optimizer loop:
`p.ebitda_summary["ebitda"] if p.ebitda_summary else -p.total_score`. -/
def ebitdaOf (p : PolicyResult) : ℚ :=
  match p.ebitda_summary with
  | some e => e.ebitda
  | none => -p.total_score

/-- The running-best loop of `optimize`, tracking the index of the kept
policy.  Strict improvement is required, so the first maximum wins. -/
def selectBestAux (i : ℕ) (acc : Option (ℕ × PolicyResult)) :
    List PolicyResult → Option (ℕ × PolicyResult)
  | [] => acc
  | p :: ps =>
    selectBestAux (i + 1)
      (match acc with
       | none => some (i, p)
       | some jq => if ebitdaOf jq.2 < ebitdaOf p then some (i, p) else acc) ps

def selectBest (l : List PolicyResult) : Option (ℕ × PolicyResult) :=
  selectBestAux 0 none l

/-- The post-selection rewrite of the displayed headline numbers
(`best_policy.base_fte` / `.winter_fte`) from simulated demand, applied in
load-band mode when the best policy has both a year-1 flu month and a
year-1 April. -/
def rederive (cfg : ClinicConfig) (p : PolicyResult) : PolicyResult :=
  if cfg.use_load_band then
    let flu := fluMonths cfg
    let fluMos := p.months.filter
      (fun mo => flu.contains mo.calendar_month && (mo.year == 1))
    let baseMos := p.months.filter
      (fun mo => (mo.calendar_month == 4) && (mo.year == 1))
    match fluMos, baseMos with
    | f :: fs, b0 :: bs =>
      let wraw := (fs.map (fun mo => mo.demand_fte_required)).foldl max f.demand_fte_required
      let braw := (bs.map (fun mo => mo.demand_fte_required)).foldl max b0.demand_fte_required
      let wq := (⌈wraw * 4⌉ : ℚ) / 4
      let bq := (⌈braw * 4⌉ : ℚ) / 4
      { p with base_fte := bq, winter_fte := max wq bq }
    | _, _ => p
  else p

/-- The `(b, w)` grid of `optimize`: year-round values floored at the
baseline coverage requirement, peak values from each `b` upward. -/
def optimizeGrid (cfg : ClinicConfig) (b_range w_range_above : ℚ × ℚ × ℚ) :
    List (ℚ × ℚ) :=
  let baseline_fte_raw :=
    (cfg.base_visits_per_day / cfg.budgeted_patients_per_provider_per_day) *
      cfg.fte_per_shift_slot
  let baseline_fte := (⌈baseline_fte_raw * 4⌉ : ℚ) / 4
  let b_start := max b_range.1 baseline_fte
  let b_vals := np_arange b_start (b_range.2.1 + b_range.2.2) b_range.2.2
  b_vals.flatMap (fun b =>
    (np_arange b (b + w_range_above.2.1 + w_range_above.2.2) w_range_above.2.2).map
      (fun w => (b, w)))

/-- Selection of the best policy and the in-place rewrite of its headline
numbers (the source mutates the selected object, which is also the list
element; the embedding replaces that element). -/
def optimizeSelect (cfg : ClinicConfig) (all : List PolicyResult) :
    Option PolicyResult × List PolicyResult :=
  match selectBest all with
  | none => (none, all)
  | some ip => (some (rederive cfg ip.2), all.set ip.1 (rederive cfg ip.2))

/-- Grid-search optimizer.  The `marginal_analysis` attachment is reporting-only and
not modelled. -/
def optimize (cfg : ClinicConfig) (b_range w_range_above : ℚ × ℚ × ℚ)
    (horizon_months : ℕ) :
    Except String (Option PolicyResult × List PolicyResult) :=
  Except.map (optimizeSelect cfg)
    ((optimizeGrid cfg b_range w_range_above).mapM (fun bw =>
      simulate_policy (round2 bw.1) (round2 bw.2) cfg horizon_months (fun _ => 0)))

-- ════════════════════════════════════════════════════════════════════════════
-- CONCRETE CONFIGURATIONS (witness and counterexample runs)
-- ════════════════════════════════════════════════════════════════════════════

/-- Support staff with all rates zeroed (keeps witness arithmetic small). -/
def zeroSupport : SupportStaffConfig :=
  { physician_rate_hr := 0, app_rate_hr := 0, psr_rate_hr := 0, ma_rate_hr := 0,
    rt_rate_hr := 0, supervisor_rate_hr := 0, ma_ratio := 0, psr_ratio := 0,
    rt_flat_fte := 0, supervisor_hrs_mo := 0, supervisor_admin_mo := 0,
    benefits_load_pct := 0, bonus_pct := 0, ot_sick_pct := 0 }

/-- A small flat-demand load-band configuration used for witness runs. -/
def wCfg : ClinicConfig :=
  { base_visits_per_day := 36,
    budgeted_patients_per_provider_per_day := 36,
    peak_factor := 1,
    quarterly_volume_impact := [0, 0, 0, 0],
    monthly_growth_factor := 1,
    operating_days_per_week := 3,
    shifts_per_day := 1,
    shift_hours := 0,
    fte_shifts_per_week := 3,
    fte_fraction := 1,
    load_band_lo := 30, load_band_hi := 38, load_winter_target := 36,
    use_load_band := true,
    min_coverage_fte := 0,
    annual_provider_cost_perm := 0,
    annual_provider_cost_flex := 0,
    net_revenue_per_visit := 0,
    swb_target_per_visit := 32,
    support := zeroSupport,
    annual_attrition_pct := 0,
    turnover_replacement_pct := 0,
    overload_attrition_factor := 0,
    summer_shed_floor_pct := 17/20,
    monthly_fixed_overhead := 0,
    burnout_pct_per_red_month := 0,
    overstaff_penalty_per_fte_month := 0,
    swb_violation_penalty := 0 }

def wShocks : ℕ → ℚ := fun _ => 0

/-- The 1-month witness run on `wCfg`. -/
def wRes : PolicyResult :=
  match simulate_policy 0 0 wCfg 1 wShocks with
  | .ok r => r
  | .error _ => default

/-- A 9-month configuration whose September hits the pre-flu bridge hire and
whose May is an overstaffed passive-shed month. -/
def cexCfg : ClinicConfig :=
  { base_visits_per_day := 36,
    budgeted_patients_per_provider_per_day := 30,
    peak_factor := 1,
    quarterly_volume_impact := [0, 0, 2, 3],
    monthly_growth_factor := 1,
    operating_days_per_week := 3,
    shifts_per_day := 1,
    shift_hours := 0,
    fte_shifts_per_week := 3,
    fte_fraction := 1,
    load_band_lo := 30, load_band_hi := 38, load_winter_target := 36,
    use_load_band := true,
    min_coverage_fte := 0,
    annual_provider_cost_perm := 0,
    annual_provider_cost_flex := 0,
    net_revenue_per_visit := 0,
    swb_target_per_visit := 32,
    support := zeroSupport,
    annual_attrition_pct := 12,
    turnover_replacement_pct := 0,
    overload_attrition_factor := 3/2,
    summer_shed_floor_pct := 17/20,
    monthly_fixed_overhead := 0,
    burnout_pct_per_red_month := 0,
    overstaff_penalty_per_fte_month := 0,
    swb_violation_penalty := 0 }

/-- The 9-month counterexample run on `cexCfg`. -/
def cexRes : PolicyResult :=
  match simulate_policy 0 0 cexCfg 9 wShocks with
  | .ok r => r
  | .error _ => default

/-- Default configuration in legacy explicit-policy mode. -/
def legacyCfg : ClinicConfig := { use_load_band := false }

/-- Configuration of the spec's concrete demand scenario: 80 visits/day,
budget 36, 7-day operation, 3 shifts/week, no seasonality, peak factor or
growth. -/
def demoCfg : ClinicConfig :=
  { base_visits_per_day := 80,
    budgeted_patients_per_provider_per_day := 36,
    peak_factor := 1,
    quarterly_volume_impact := [0, 0, 0, 0],
    monthly_growth_factor := 1,
    operating_days_per_week := 7,
    fte_shifts_per_week := 3 }

/-- The tiny-grid optimizer run on `wCfg` (one grid cell). -/
def wOpt : Option PolicyResult × List PolicyResult :=
  match optimize wCfg (1, 1, 1) (0, 0, 1) 1 with
  | .ok x => x
  | .error _ => (none, [])

def wBest : PolicyResult := wOpt.1.getD default

/-- A single small formal-requisition hire event in the peak season. -/
def cexHire : HireEvent :=
  { simulation_month := 1, calendar_month := 12, year := 1, fte_hired := 1/5,
    mode := "winter_ramp", post_by_month := 6, post_by_year := 1,
    independent_month := 12, independent_year := 1 }

-- ════════════════════════════════════════════════════════════════════════════
-- GENERIC RUN MACHINERY
-- ════════════════════════════════════════════════════════════════════════════

theorem stepMonth_ok_eq {b w : ℚ} {cfg : ClinicConfig} {sh : ℕ → ℚ}
    {lead : ℕ} {st st' : SimState} {m : ℕ}
    (h : stepMonth b w cfg sh lead st m = .ok st') :
    st' = stepCore b w cfg sh lead st m := by
  unfold stepMonth at h
  split at h
  · exact absurd h (by simp)
  · injection h with h
    exact h.symm

theorem foldlM_ok_inv {σ α : Type} (P : σ → Prop) (f : σ → α → Except String σ)
    (hstep : ∀ s a s', f s a = .ok s' → P s → P s') :
    ∀ (l : List α) (s : σ), P s → ∀ s', l.foldlM f s = .ok s' → P s' := by
  intro l
  induction l with
  | nil =>
    intro s hs s' h
    simp only [List.foldlM_nil] at h
    cases h
    exact hs
  | cons a l ih =>
    intro s hs s' h
    rw [List.foldlM_cons] at h
    cases hfa : f s a with
    | error e =>
      rw [hfa] at h
      exact absurd h (by simp [Bind.bind, Except.bind])
    | ok s1 =>
      rw [hfa] at h
      exact ih s1 (hstep s a s1 hfa hs) s' h

theorem simulate_ok_elim {b w : ℚ} {cfg : ClinicConfig} {n : ℕ} {sh : ℕ → ℚ}
    {res : PolicyResult} (h : simulate_policy b w cfg n sh = .ok res) :
    ∃ st, (List.range n).foldlM (stepMonth b w cfg sh (leadMonthsOf cfg))
        (initState b cfg) = .ok st ∧ res = finalize b w cfg st := by
  unfold simulate_policy at h
  cases hf : (List.range n).foldlM (stepMonth b w cfg sh (leadMonthsOf cfg))
      (initState b cfg) with
  | error e =>
    rw [hf] at h
    exact absurd h (by simp [Except.map])
  | ok st =>
    rw [hf] at h
    simp only [Except.map] at h
    injection h with h
    exact ⟨st, rfl, h.symm⟩

/-- Every month of a succeeding run satisfies any predicate preserved by the
(total) month step. -/
theorem run_months_pred {b w : ℚ} {cfg : ClinicConfig} {n : ℕ} {sh : ℕ → ℚ}
    {res : PolicyResult} (P : MonthResult → Prop)
    (hstep : ∀ st m, (∀ mo ∈ st.months, P mo) →
      ∀ mo ∈ (stepCore b w cfg sh (leadMonthsOf cfg) st m).months, P mo)
    (h : simulate_policy b w cfg n sh = .ok res) :
    ∀ mo ∈ res.months, P mo := by
  obtain ⟨st, hf, hres⟩ := simulate_ok_elim h
  have hinv := foldlM_ok_inv (fun s => ∀ mo ∈ s.months, P mo)
    (stepMonth b w cfg sh (leadMonthsOf cfg))
    (by
      intro s a s' hok hs
      rw [stepMonth_ok_eq hok]
      exact hstep s a hs)
    (List.range n) (initState b cfg) (by intro mo hmo; simp [initState] at hmo)
    st hf
  rw [hres]
  exact hinv

/-- C1 step extraction: the month appended by `stepCore` satisfies the
EBITDA waterfall identity and the cumulative-EBITDA bookkeeping. -/
theorem stepCore_ebitda_shape (b w : ℚ) (cfg : ClinicConfig) (sh : ℕ → ℚ)
    (lead : ℕ) (st : SimState) (m : ℕ) :
    ∃ mo, (stepCore b w cfg sh lead st m).months = st.months ++ [mo]
      ∧ mo.ebitda_contribution = mo.revenue_captured
          - (mo.permanent_cost + mo.support_cost) - mo.flex_cost
          - mo.turnover_cost - mo.burnout_penalty - cfg.monthly_fixed_overhead
      ∧ (stepCore b w cfg sh lead st m).total_ebitda
          = st.total_ebitda + mo.ebitda_contribution
      ∧ mo.cumulative_ebitda = st.total_ebitda + mo.ebitda_contribution :=
  ⟨_, rfl, rfl, rfl, rfl⟩

/-- C1: in every month of every succeeding `simulate_policy` run, the
recorded `ebitda_contribution` equals captured revenue minus (permanent plus
support labor), minus flex, turnover, burnout and the configured monthly
fixed overhead, exactly; and the last month's `cumulative_ebitda` is the sum
of the per-month contributions. -/
theorem C1_ebitda_waterfall (b w : ℚ) (cfg : ClinicConfig) (n : ℕ)
    (sh : ℕ → ℚ) (res : PolicyResult)
    (h : simulate_policy b w cfg n sh = .ok res) :
    (∀ mo ∈ res.months,
      mo.ebitda_contribution = mo.revenue_captured
        - (mo.permanent_cost + mo.support_cost) - mo.flex_cost
        - mo.turnover_cost - mo.burnout_penalty - cfg.monthly_fixed_overhead)
    ∧ (res.months ≠ [] →
        (res.months.getLastD default).cumulative_ebitda
          = (res.months.map (fun mo => mo.ebitda_contribution)).sum) := by
  obtain ⟨st, hf, hres⟩ := simulate_ok_elim h
  have hinv := foldlM_ok_inv
    (fun s =>
      (∀ mo ∈ s.months,
        mo.ebitda_contribution = mo.revenue_captured
          - (mo.permanent_cost + mo.support_cost) - mo.flex_cost
          - mo.turnover_cost - mo.burnout_penalty - cfg.monthly_fixed_overhead)
      ∧ s.total_ebitda = (s.months.map (fun mo => mo.ebitda_contribution)).sum
      ∧ (s.months ≠ [] →
          (s.months.getLastD default).cumulative_ebitda = s.total_ebitda))
    (stepMonth b w cfg sh (leadMonthsOf cfg))
    (by
      intro s a s' hok hs
      rw [stepMonth_ok_eq hok]
      obtain ⟨mo, hmo, hid, htot, hcum⟩ :=
        stepCore_ebitda_shape b w cfg sh (leadMonthsOf cfg) s a
      refine ⟨?_, ?_, ?_⟩
      · intro mo2 hmo2
        rw [hmo] at hmo2
        rcases List.mem_append.mp hmo2 with hm | hm
        · exact hs.1 mo2 hm
        · rw [List.mem_singleton] at hm
          subst hm
          exact hid
      · rw [hmo, List.map_append, List.sum_append, htot, hs.2.1]
        simp
      · intro _
        rw [hmo, List.getLastD_concat, hcum, htot])
    (List.range n) (initState b cfg)
    (by
      refine ⟨?_, rfl, ?_⟩
      · intro mo hmo
        simp [initState] at hmo
      · intro hne
        exact absurd rfl hne)
    st hf
  subst hres
  exact ⟨hinv.1, fun hne => (hinv.2.2 hne).trans hinv.2.1⟩

unseal Rat.mul Rat.add Rat.sub Rat.inv in
/-- C1 witness: the waterfall identity evaluated on the concrete run `wRes`. -/
theorem C1_witness :
    simulate_policy 0 0 wCfg 1 wShocks = .ok wRes
    ∧ (∀ mo ∈ wRes.months,
        mo.ebitda_contribution = mo.revenue_captured
          - (mo.permanent_cost + mo.support_cost) - mo.flex_cost
          - mo.turnover_cost - mo.burnout_penalty - wCfg.monthly_fixed_overhead)
    ∧ wRes.months ≠ []
    ∧ (wRes.months.getLastD default).cumulative_ebitda
        = (wRes.months.map (fun mo => mo.ebitda_contribution)).sum :=
  ⟨rfl, (C1_ebitda_waterfall 0 0 wCfg 1 wShocks wRes rfl).1, by decide,
    (C1_ebitda_waterfall 0 0 wCfg 1 wShocks wRes rfl).2 (by decide)⟩

/-- The zone string is determined by the recorded workload through the
two-threshold chain. -/
theorem zone_iff_of_eq {z : String} {pts a r : ℚ}
    (hz : z = if pts ≤ a then "Green" else if pts ≤ r then "Yellow" else "Red") :
    (z = "Green" ↔ pts ≤ a) ∧ (z = "Yellow" ↔ (a < pts ∧ pts ≤ r))
    ∧ (z = "Red" ↔ (a < pts ∧ r < pts)) := by
  subst hz
  by_cases h1 : pts ≤ a <;> by_cases h2 : pts ≤ r <;>
    simp [h1, h2, not_le.mp, lt_of_not_le]

/-- The month appended by `stepCore` records the zone computed from its own
recorded workload by the threshold chain. -/
theorem stepCore_zone_shape (b w : ℚ) (cfg : ClinicConfig) (sh : ℕ → ℚ)
    (lead : ℕ) (st : SimState) (m : ℕ) :
    ∃ mo, (stepCore b w cfg sh lead st m).months = st.months ++ [mo]
      ∧ mo.zone = (if mo.patients_per_provider_per_shift
            ≤ cfg.budgeted_patients_per_provider_per_day + cfg.yellow_threshold_above
          then "Green"
          else if mo.patients_per_provider_per_shift
            ≤ cfg.budgeted_patients_per_provider_per_day + cfg.red_threshold_above
          then "Yellow" else "Red") :=
  ⟨_, rfl, rfl⟩

/-- C5: zone classification in every recorded month. -/
theorem C5_zone_thresholds (b w : ℚ) (cfg : ClinicConfig) (n : ℕ)
    (sh : ℕ → ℚ) (res : PolicyResult)
    (h : simulate_policy b w cfg n sh = .ok res) :
    ∀ mo ∈ res.months,
      (mo.zone = "Green" ↔ mo.patients_per_provider_per_shift
          ≤ cfg.budgeted_patients_per_provider_per_day + cfg.yellow_threshold_above)
      ∧ (mo.zone = "Yellow" ↔
          (cfg.budgeted_patients_per_provider_per_day + cfg.yellow_threshold_above
              < mo.patients_per_provider_per_shift
            ∧ mo.patients_per_provider_per_shift
              ≤ cfg.budgeted_patients_per_provider_per_day + cfg.red_threshold_above))
      ∧ (mo.zone = "Red" ↔
          (cfg.budgeted_patients_per_provider_per_day + cfg.yellow_threshold_above
              < mo.patients_per_provider_per_shift
            ∧ cfg.budgeted_patients_per_provider_per_day + cfg.red_threshold_above
              < mo.patients_per_provider_per_shift))
      ∧ (0 ≤ cfg.yellow_threshold_above →
          mo.patients_per_provider_per_shift = cfg.budgeted_patients_per_provider_per_day →
          mo.zone = "Green") := by
  refine run_months_pred _ ?_ h
  intro st m hprev mo hmo
  obtain ⟨mo0, hmo0, hz⟩ := stepCore_zone_shape b w cfg sh (leadMonthsOf cfg) st m
  rw [hmo0] at hmo
  rcases List.mem_append.mp hmo with hm | hm
  · exact hprev mo hm
  · rw [List.mem_singleton] at hm
    subst hm
    obtain ⟨h1, h2, h3⟩ := zone_iff_of_eq hz
    refine ⟨h1, h2, h3, ?_⟩
    intro hy hb
    rw [h1, hb]
    linarith

/-- All hiring-mode strings the decision chain can emit. -/
theorem hiringPhase_mode_mem (cfg : ClinicConfig) (m cal year lead_months : ℕ)
    (in_flu in_summer in_active pfh : Bool)
    (target summer_floor attrition_events paid deferred : ℚ)
    (cohorts : List (ℕ × ℚ)) (events : List HireEvent) :
    (hiringPhase cfg m cal year lead_months in_flu in_summer in_active pfh
      target summer_floor attrition_events paid deferred cohorts events).mode
    ∈ ["growth", "attrition_replace", "winter_ramp", "floor_protect",
       "shed_pause", "shed_passive", "deferred", "maintain", "none"] := by
  unfold hiringPhase
  split_ifs <;> simp <;> split_ifs <;> simp

theorem stepCore_mode_shape (b w : ℚ) (cfg : ClinicConfig) (sh : ℕ → ℚ)
    (lead : ℕ) (st : SimState) (m : ℕ) :
    ∃ mo, (stepCore b w cfg sh lead st m).months = st.months ++ [mo]
      ∧ mo.hiring_mode
        ∈ ["growth", "attrition_replace", "winter_ramp", "floor_protect",
           "shed_pause", "shed_passive", "deferred", "maintain", "none"] := by
  refine ⟨_, rfl, ?_⟩
  exact hiringPhase_mode_mem _ _ _ _ _ _ _ _ _ _ _ _ _ _ _ _

/-- C7 (amended): every recorded hiring mode is drawn from the closed
nine-element set that also contains `shed_passive`. -/
theorem C7_hiring_modes_amended (b w : ℚ) (cfg : ClinicConfig) (n : ℕ)
    (sh : ℕ → ℚ) (res : PolicyResult)
    (h : simulate_policy b w cfg n sh = .ok res) :
    ∀ mo ∈ res.months,
      mo.hiring_mode
      ∈ ["growth", "attrition_replace", "winter_ramp", "floor_protect",
         "shed_pause", "shed_passive", "deferred", "maintain", "none"] := by
  refine run_months_pred _ ?_ h
  intro st m hprev mo hmo
  obtain ⟨mo0, hmo0, hmode⟩ := stepCore_mode_shape b w cfg sh (leadMonthsOf cfg) st m
  rw [hmo0] at hmo
  rcases List.mem_append.mp hmo with hm | hm
  · exact hprev mo hm
  · rw [List.mem_singleton] at hm
    subst hm
    exact hmode

set_option maxRecDepth 10000 in
unseal Rat.mul Rat.add Rat.sub Rat.inv in
/-- C7 counterexample: month 5 of the `cexCfg` run records the hiring mode
`shed_passive`, which is outside the claimed eight-element set. -/
theorem C7_counterexample :
    simulate_policy 0 0 cexCfg 9 wShocks = .ok cexRes
    ∧ (cexRes.months.getD 4 default) ∈ cexRes.months
    ∧ (cexRes.months.getD 4 default).hiring_mode = "shed_passive"
    ∧ "shed_passive" ∉ ["growth", "attrition_replace", "winter_ramp",
        "floor_protect", "shed_pause", "deferred", "maintain", "none"] :=
  ⟨rfl, by decide, by decide, by decide⟩

unseal Rat.mul Rat.add Rat.sub Rat.inv in
/-- C7 witness: the amended mode set evaluated on the concrete run `wRes`. -/
theorem C7_witness :
    simulate_policy 0 0 wCfg 1 wShocks = .ok wRes
    ∧ (wRes.months.getD 0 default) ∈ wRes.months
    ∧ (wRes.months.getD 0 default).hiring_mode
      ∈ ["growth", "attrition_replace", "winter_ramp", "floor_protect",
         "shed_pause", "shed_passive", "deferred", "maintain", "none"] :=
  ⟨rfl, by decide, C7_hiring_modes_amended 0 0 wCfg 1 wShocks wRes rfl _ (by decide)⟩

unseal Rat.mul Rat.add Rat.sub Rat.inv in
/-- C5 witness: the zone thresholds evaluated on the concrete run `wRes`. -/
theorem C5_witness :
    simulate_policy 0 0 wCfg 1 wShocks = .ok wRes
    ∧ (wRes.months.getD 0 default) ∈ wRes.months
    ∧ ((wRes.months.getD 0 default).zone = "Green" ↔
        (wRes.months.getD 0 default).patients_per_provider_per_shift
          ≤ wCfg.budgeted_patients_per_provider_per_day + wCfg.yellow_threshold_above) :=
  ⟨rfl, by decide,
    (C5_zone_thresholds 0 0 wCfg 1 wShocks wRes rfl _ (by decide)).1⟩

-- ════════════════════════════════════════════════════════════════════════════
-- NONNEGATIVITY INVARIANTS (C6)
-- ════════════════════════════════════════════════════════════════════════════

theorem round_up_fte_nonneg (r : ℚ) : 0 ≤ _round_up_fte r := by
  unfold _round_up_fte
  split
  · exact le_rfl
  next h =>
    split
    next inc hfind =>
      have hp := List.find?_some hfind
      have : r ≤ inc := of_decide_eq_true hp
      have : 0 < r := lt_of_not_le h
      linarith
    next hfind =>
      have : 0 < r := lt_of_not_le h
      have h2 : (0 : ℤ) ≤ ⌈r * 2⌉ := Int.ceil_nonneg (by linarith)
      have h3 : (0 : ℚ) ≤ (⌈r * 2⌉ : ℚ) := by exact_mod_cast h2
      linarith

theorem targetPhaseActive_paid_ge (w : ℚ) (cfg : ClinicConfig) (st : SimState)
    (m : ℕ) (lead : ℕ) :
    st.paid_fte ≤ (targetPhaseActive w cfg st m lead).paid := by
  simp only [targetPhaseActive]
  split
  · exact le_add_of_nonneg_right (round_up_fte_nonneg _)
  · exact le_rfl

theorem targetPhaseActive_cohorts (w : ℚ) (cfg : ClinicConfig) (st : SimState)
    (m : ℕ) (lead : ℕ) (hc : cohortsNonneg st.ramp_cohorts) :
    cohortsNonneg (targetPhaseActive w cfg st m lead).cohorts := by
  simp only [targetPhaseActive]
  split
  · intro c hmem
    rcases List.mem_append.mp hmem with hm | hm
    · exact hc c hm
    · rw [List.mem_singleton] at hm
      subst hm
      exact round_up_fte_nonneg _
  · exact hc

theorem schedNonneg_update (s : ℕ → Option ℚ) (hs : schedNonneg s) (year : ℕ)
    (v : ℚ) (hv : 0 ≤ v) :
    schedNonneg (fun y => if y = year then some v else s y) := by
  intro y
  dsimp only
  split
  · simpa using hv
  · exact hs y

theorem targetPhaseActive_sched (w : ℚ) (cfg : ClinicConfig) (st : SimState)
    (m : ℕ) (lead : ℕ) (hs : schedNonneg st.scheduled_anchor_hires) :
    schedNonneg (targetPhaseActive w cfg st m lead).sched := by
  simp only [targetPhaseActive]
  split <;> split <;>
    first
      | exact hs
      | exact schedNonneg_update _ hs _ _ (add_nonneg (hs _) (round_up_fte_nonneg _))

theorem targetPhaseCore_paid_ge (w : ℚ) (cfg : ClinicConfig) (st : SimState)
    (m : ℕ) (v : ℚ) (lead : ℕ) :
    st.paid_fte ≤ (targetPhaseCore w cfg st m v lead).paid := by
  simp only [targetPhaseCore]
  split
  · exact targetPhaseActive_paid_ge w cfg st m lead
  · exact le_rfl

theorem targetPhaseCore_cohorts (w : ℚ) (cfg : ClinicConfig) (st : SimState)
    (m : ℕ) (v : ℚ) (lead : ℕ) (hc : cohortsNonneg st.ramp_cohorts) :
    cohortsNonneg (targetPhaseCore w cfg st m v lead).cohorts := by
  simp only [targetPhaseCore]
  split
  · exact targetPhaseActive_cohorts w cfg st m lead hc
  · exact hc

theorem targetPhaseCore_sched (w : ℚ) (cfg : ClinicConfig) (st : SimState)
    (m : ℕ) (v : ℚ) (lead : ℕ) (hs : schedNonneg st.scheduled_anchor_hires) :
    schedNonneg (targetPhaseCore w cfg st m v lead).sched := by
  simp only [targetPhaseCore]
  split
  · exact targetPhaseActive_sched w cfg st m lead hs
  · exact hs

theorem targetPhase_paid_ge (b w : ℚ) (cfg : ClinicConfig) (st : SimState)
    (m : ℕ) (v : ℚ) (lead : ℕ) :
    st.paid_fte ≤ (targetPhase b w cfg st m v lead).paid := by
  simp only [targetPhase]
  split
  · exact targetPhaseCore_paid_ge w cfg st m v lead
  · exact le_rfl

theorem targetPhase_cohorts (b w : ℚ) (cfg : ClinicConfig) (st : SimState)
    (m : ℕ) (v : ℚ) (lead : ℕ) (hc : cohortsNonneg st.ramp_cohorts) :
    cohortsNonneg (targetPhase b w cfg st m v lead).cohorts := by
  simp only [targetPhase]
  split
  · exact targetPhaseCore_cohorts w cfg st m v lead hc
  · exact hc

theorem targetPhase_sched (b w : ℚ) (cfg : ClinicConfig) (st : SimState)
    (m : ℕ) (v : ℚ) (lead : ℕ) (hs : schedNonneg st.scheduled_anchor_hires) :
    schedNonneg (targetPhase b w cfg st m v lead).sched := by
  simp only [targetPhase]
  split
  · exact targetPhaseCore_sched w cfg st m v lead hs
  · exact hs

theorem hiringPhase_paid_ge (cfg : ClinicConfig) (m cal year lead_months : ℕ)
    (in_flu in_summer in_active pfh : Bool)
    (target summer_floor attrition_events paid deferred : ℚ)
    (cohorts : List (ℕ × ℚ)) (events : List HireEvent) :
    paid ≤ (hiringPhase cfg m cal year lead_months in_flu in_summer in_active
      pfh target summer_floor attrition_events paid deferred cohorts events).paid := by
  simp only [hiringPhase]
  split_ifs <;>
    first
      | exact le_rfl
      | exact le_add_of_nonneg_right (round_up_fte_nonneg _)

theorem hiringPhase_cohorts (cfg : ClinicConfig) (m cal year lead_months : ℕ)
    (in_flu in_summer in_active pfh : Bool)
    (target summer_floor attrition_events paid deferred : ℚ)
    (cohorts : List (ℕ × ℚ)) (events : List HireEvent)
    (hc : cohortsNonneg cohorts) :
    cohortsNonneg (hiringPhase cfg m cal year lead_months in_flu in_summer
      in_active pfh target summer_floor attrition_events paid deferred cohorts
      events).cohorts := by
  simp only [hiringPhase]
  split_ifs <;>
    first
      | exact hc
      | (intro c hmem
         rcases List.mem_append.mp hmem with hm | hm
         · exact hc c hm
         · rw [List.mem_singleton] at hm
           subst hm
           exact round_up_fte_nonneg _)

theorem rampPhase_aux (cfg : ClinicConfig)
    (hr : ∀ p ∈ cfg.ramp_productivity, p ≤ 1) :
    ∀ (l : List (ℕ × ℚ)), cohortsNonneg l →
      ∀ (acc : ℚ × List (ℕ × ℚ)), 0 ≤ acc.1 → cohortsNonneg acc.2 →
        0 ≤ (l.foldl (fun acc c =>
            let contrib :=
              if cfg.ramp_months - c.1 < cfg.ramp_productivity.length then
                c.2 * (1 - cfg.ramp_productivity.getD (cfg.ramp_months - c.1) 0)
              else 0
            let ml := c.1 - 1
            (acc.1 + contrib, if 0 < ml then acc.2 ++ [(ml, c.2)] else acc.2)) acc).1
        ∧ cohortsNonneg (l.foldl (fun acc c =>
            let contrib :=
              if cfg.ramp_months - c.1 < cfg.ramp_productivity.length then
                c.2 * (1 - cfg.ramp_productivity.getD (cfg.ramp_months - c.1) 0)
              else 0
            let ml := c.1 - 1
            (acc.1 + contrib, if 0 < ml then acc.2 ++ [(ml, c.2)] else acc.2)) acc).2 := by
  intro l
  induction l with
  | nil =>
    intro _ acc h1 h2
    exact ⟨h1, h2⟩
  | cons c l ih =>
    intro hl acc h1 h2
    rw [List.foldl_cons]
    refine ih (fun x hx => hl x (List.mem_cons_of_mem c hx)) _ ?_ ?_
    · have hc2 : 0 ≤ c.2 := hl c (List.mem_cons_self c l)
      have hcontrib : 0 ≤ (if cfg.ramp_months - c.1 < cfg.ramp_productivity.length then
          c.2 * (1 - cfg.ramp_productivity.getD (cfg.ramp_months - c.1) 0)
        else 0) := by
        split
        next hidx =>
          have hmem : cfg.ramp_productivity.getD (cfg.ramp_months - c.1) 0
              ∈ cfg.ramp_productivity := by
            rw [List.getD_eq_getElem _ _ hidx]
            exact List.getElem_mem hidx
          have := hr _ hmem
          have h1m : 0 ≤ 1 - cfg.ramp_productivity.getD (cfg.ramp_months - c.1) 0 := by
            linarith
          exact mul_nonneg hc2 h1m
        · exact le_rfl
      exact add_nonneg h1 hcontrib
    · have hc2 : 0 ≤ c.2 := hl c (List.mem_cons_self c l)
      dsimp only
      split
      · intro x hx
        rcases List.mem_append.mp hx with hm | hm
        · exact h2 x hm
        · rw [List.mem_singleton] at hm
          subst hm
          exact hc2
      · exact h2

theorem rampPhase_drag_nonneg (cfg : ClinicConfig) (l : List (ℕ × ℚ))
    (hr : ∀ p ∈ cfg.ramp_productivity, p ≤ 1) (hc : cohortsNonneg l) :
    0 ≤ (rampPhase cfg l).1 :=
  (rampPhase_aux cfg hr l hc (0, []) le_rfl (by intro c h; cases h)).1

theorem rampPhase_cohorts (cfg : ClinicConfig) (l : List (ℕ × ℚ))
    (hr : ∀ p ∈ cfg.ramp_productivity, p ≤ 1) (hc : cohortsNonneg l) :
    cohortsNonneg (rampPhase cfg l).2 :=
  (rampPhase_aux cfg hr l hc (0, []) le_rfl (by intro c h; cases h)).2

/-- Erasing entries (setting them to `none`) preserves nonnegativity of a
schedule. -/
theorem schedNonneg_erase (s : ℕ → Option ℚ) (hs : schedNonneg s)
    (p : ℕ → Prop) [DecidablePred p] :
    schedNonneg (fun y => if p y then none else s y) := by
  intro y
  dsimp only
  split
  · simp
  · exact hs y

/-- C6 step extraction: the appended month's recorded headcounts satisfy the
floor and the ramp-drag bound, and the state invariants are preserved. -/
theorem stepCore_fte_shape (b w : ℚ) (cfg : ClinicConfig) (sh : ℕ → ℚ)
    (lead : ℕ) (st : SimState) (m : ℕ)
    (hmc : 0 ≤ cfg.min_coverage_fte)
    (hr : ∀ p ∈ cfg.ramp_productivity, p ≤ 1)
    (hsch : schedNonneg st.scheduled_anchor_hires)
    (hcoh : cohortsNonneg st.ramp_cohorts) :
    (∃ mo, (stepCore b w cfg sh lead st m).months = st.months ++ [mo]
      ∧ cfg.min_coverage_fte ≤ mo.paid_fte
      ∧ mo.effective_fte ≤ mo.paid_fte)
    ∧ schedNonneg (stepCore b w cfg sh lead st m).scheduled_anchor_hires
    ∧ cohortsNonneg (stepCore b w cfg sh lead st m).ramp_cohorts := by
  refine ⟨⟨_, rfl, ?_, ?_⟩, ?_, ?_⟩
  · refine le_trans ?_ (hiringPhase_paid_ge _ _ _ _ _ _ _ _ _ _ _ _ _ _ _ _)
    refine le_trans (le_max_left _ _) (le_add_of_nonneg_right ?_)
    split
    · exact targetPhase_sched b w cfg st m _ lead hsch _
    · exact le_rfl
  · refine max_le
      (le_trans hmc (le_trans ?_ (hiringPhase_paid_ge _ _ _ _ _ _ _ _ _ _ _ _ _ _ _ _)))
      (sub_le_self _ ?_)
    · refine le_trans (le_max_left _ _) (le_add_of_nonneg_right ?_)
      split
      · exact targetPhase_sched b w cfg st m _ lead hsch _
      · exact le_rfl
    · exact rampPhase_drag_nonneg cfg _ hr
        (hiringPhase_cohorts _ _ _ _ _ _ _ _ _ _ _ _ _ _ _ _
          (targetPhase_cohorts b w cfg st m _ lead hcoh))
  · exact schedNonneg_erase _ (targetPhase_sched b w cfg st m _ lead hsch) _
  · exact rampPhase_cohorts cfg _ hr
      (hiringPhase_cohorts _ _ _ _ _ _ _ _ _ _ _ _ _ _ _ _
        (targetPhase_cohorts b w cfg st m _ lead hcoh))

/-- C6: whenever the coverage floor is nonnegative and every ramp
productivity is at most 1, every recorded month has
`effective_fte ≤ paid_fte` and `paid_fte ≥ min_coverage_fte`. -/
theorem C6_fte_invariants (b w : ℚ) (cfg : ClinicConfig) (n : ℕ)
    (sh : ℕ → ℚ) (res : PolicyResult)
    (hmc : 0 ≤ cfg.min_coverage_fte)
    (hr : ∀ p ∈ cfg.ramp_productivity, p ≤ 1)
    (h : simulate_policy b w cfg n sh = .ok res) :
    ∀ mo ∈ res.months,
      mo.effective_fte ≤ mo.paid_fte ∧ cfg.min_coverage_fte ≤ mo.paid_fte := by
  obtain ⟨st, hf, hres⟩ := simulate_ok_elim h
  have hinv := foldlM_ok_inv
    (fun s => schedNonneg s.scheduled_anchor_hires
      ∧ cohortsNonneg s.ramp_cohorts
      ∧ ∀ mo ∈ s.months,
          mo.effective_fte ≤ mo.paid_fte ∧ cfg.min_coverage_fte ≤ mo.paid_fte)
    (stepMonth b w cfg sh (leadMonthsOf cfg))
    (by
      intro s a s' hok hs
      rw [stepMonth_ok_eq hok]
      obtain ⟨⟨mo, hmo, hpd, heff⟩, hsch2, hcoh2⟩ :=
        stepCore_fte_shape b w cfg sh (leadMonthsOf cfg) s a hmc hr hs.1 hs.2.1
      refine ⟨hsch2, hcoh2, ?_⟩
      intro mo2 hmo2
      rw [hmo] at hmo2
      rcases List.mem_append.mp hmo2 with hm | hm
      · exact hs.2.2 mo2 hm
      · rw [List.mem_singleton] at hm
        subst hm
        exact ⟨heff, hpd⟩)
    (List.range n) (initState b cfg)
    (by
      refine ⟨?_, ?_, ?_⟩
      · intro y
        simp [initState]
      · intro c hc
        simp [initState] at hc
      · intro mo hmo
        simp [initState] at hmo)
    st hf
  subst hres
  exact hinv.2.2

-- ════════════════════════════════════════════════════════════════════════════
-- OPTIMIZER CORRECTNESS (C2)
-- ════════════════════════════════════════════════════════════════════════════

theorem selectBestAux_get :
    ∀ (l : List PolicyResult) (i : ℕ) (acc : Option (ℕ × PolicyResult))
      (j : ℕ) (q : PolicyResult),
      selectBestAux i acc l = some (j, q) →
      acc = some (j, q) ∨ ∃ k, k < l.length ∧ j = i + k ∧ l.get? k = some q := by
  intro l
  induction l with
  | nil =>
    intro i acc j q h
    exact Or.inl h
  | cons p ps ih =>
    intro i acc j q h
    simp only [selectBestAux] at h
    rcases ih (i + 1) _ j q h with hacc | ⟨k, hk, hjk, hget⟩
    · cases acc with
      | none =>
        simp only [Option.some.injEq, Prod.mk.injEq] at hacc
        refine Or.inr ⟨0, by simp, by omega, ?_⟩
        simp [hacc.2]
      | some jq =>
        dsimp only at hacc
        by_cases hlt : ebitdaOf jq.2 < ebitdaOf p
        · rw [if_pos hlt] at hacc
          simp only [Option.some.injEq, Prod.mk.injEq] at hacc
          refine Or.inr ⟨0, by simp, by omega, ?_⟩
          simp [hacc.2]
        · rw [if_neg hlt] at hacc
          exact Or.inl hacc
    · refine Or.inr ⟨k + 1, by simpa using hk, by omega, by simpa using hget⟩

theorem selectBestAux_max :
    ∀ (l : List PolicyResult) (i : ℕ) (acc : Option (ℕ × PolicyResult))
      (j : ℕ) (q : PolicyResult),
      selectBestAux i acc l = some (j, q) →
      (∀ r ∈ l, ebitdaOf r ≤ ebitdaOf q)
      ∧ (∀ jq0, acc = some jq0 → ebitdaOf jq0.2 ≤ ebitdaOf q) := by
  intro l
  induction l with
  | nil =>
    intro i acc j q h
    refine ⟨?_, ?_⟩
    · intro r hr
      cases hr
    · intro jq0 hacc
      rw [hacc] at h
      injection h with h
      rw [h]
  | cons p ps ih =>
    intro i acc j q h
    simp only [selectBestAux] at h
    have hp_le : ebitdaOf p ≤ ebitdaOf q := by
      cases acc with
      | none => exact (ih (i + 1) _ j q h).2 (i, p) rfl
      | some jq =>
        dsimp only at h
        by_cases hlt : ebitdaOf jq.2 < ebitdaOf p
        · rw [if_pos hlt] at h
          exact (ih (i + 1) _ j q h).2 (i, p) rfl
        · rw [if_neg hlt] at h
          exact le_trans (le_of_not_lt hlt) ((ih (i + 1) _ j q h).2 jq rfl)
    refine ⟨?_, ?_⟩
    · intro r hr
      rcases List.mem_cons.mp hr with hr | hr
      · rw [hr]; exact hp_le
      · cases acc with
        | none => exact (ih (i + 1) _ j q h).1 r hr
        | some jq =>
          dsimp only at h
          by_cases hlt : ebitdaOf jq.2 < ebitdaOf p
          · rw [if_pos hlt] at h
            exact (ih (i + 1) _ j q h).1 r hr
          · rw [if_neg hlt] at h
            exact (ih (i + 1) _ j q h).1 r hr
    · intro jq0 hacc
      cases acc with
      | none => cases hacc
      | some jq =>
        injection hacc with hacc
        subst hacc
        dsimp only at h
        by_cases hlt : ebitdaOf jq.2 < ebitdaOf p
        · rw [if_pos hlt] at h
          exact le_trans (le_of_lt hlt) ((ih (i + 1) _ j q h).2 (i, p) rfl)
        · rw [if_neg hlt] at h
          exact (ih (i + 1) _ j q h).2 jq rfl

theorem selectBest_spec (l : List PolicyResult) (j : ℕ) (q : PolicyResult)
    (h : selectBest l = some (j, q)) :
    l.get? j = some q ∧ ∀ r ∈ l, ebitdaOf r ≤ ebitdaOf q := by
  refine ⟨?_, (selectBestAux_max l 0 none j q h).1⟩
  rcases selectBestAux_get l 0 none j q h with h0 | ⟨k, _, hjk, hget⟩
  · cases h0
  · rw [hjk]
    simpa using hget

theorem rederive_summary (cfg : ClinicConfig) (p : PolicyResult) :
    (rederive cfg p).ebitda_summary = p.ebitda_summary := by
  unfold rederive
  split
  · dsimp only
    split <;> rfl
  · rfl

theorem rederive_total_score (cfg : ClinicConfig) (p : PolicyResult) :
    (rederive cfg p).total_score = p.total_score := by
  unfold rederive
  split
  · dsimp only
    split <;> rfl
  · rfl

theorem rederive_ebitdaOf (cfg : ClinicConfig) (p : PolicyResult) :
    ebitdaOf (rederive cfg p) = ebitdaOf p := by
  unfold ebitdaOf
  rw [rederive_summary, rederive_total_score]

theorem mapM_ok_forall {α β : Type} (f : α → Except String β) :
    ∀ (l : List α) (out : List β), l.mapM f = .ok out →
      ∀ y ∈ out, ∃ x ∈ l, f x = .ok y := by
  intro l
  induction l with
  | nil =>
    intro out h y hy
    simp only [List.mapM_nil] at h
    cases h
    cases hy
  | cons a l ih =>
    intro out h y hy
    rw [List.mapM_cons] at h
    cases hfa : f a with
    | error e =>
      rw [hfa] at h
      exact absurd h (by simp [Bind.bind, Except.bind])
    | ok b =>
      rw [hfa] at h
      cases hml : l.mapM f with
      | error e =>
        rw [hml] at h
        exact absurd h (by simp [Bind.bind, Except.bind, Pure.pure, Except.pure])
      | ok bs =>
        rw [hml] at h
        have : b :: bs = out := by
          simpa [Bind.bind, Except.bind, Pure.pure, Except.pure] using h
        subst this
        rcases List.mem_cons.mp hy with hy | hy
        · exact ⟨a, List.mem_cons_self a l, hy ▸ hfa⟩
        · obtain ⟨x, hx, hfx⟩ := ih bs hml y hy
          exact ⟨x, List.mem_cons_of_mem a hx, hfx⟩

theorem simulate_summary_isSome {b w : ℚ} {cfg : ClinicConfig} {n : ℕ}
    {sh : ℕ → ℚ} {res : PolicyResult}
    (h : simulate_policy b w cfg n sh = .ok res) :
    res.ebitda_summary.isSome := by
  obtain ⟨st, _, hres⟩ := simulate_ok_elim h
  subst hres
  rfl

/-- C2: whenever `optimize` returns a best policy, it is an element of the
returned list, its selection key dominates every listed policy's key, and
every listed policy carries an EBITDA summary (so the key is its
`ebitda_summary.ebitda`). -/
theorem C2_optimize_argmax (cfg : ClinicConfig) (br wr : ℚ × ℚ × ℚ) (n : ℕ)
    (best : PolicyResult) (all : List PolicyResult)
    (h : optimize cfg br wr n = .ok (some best, all)) :
    best ∈ all
    ∧ (∀ p ∈ all, ebitdaOf p ≤ ebitdaOf best)
    ∧ (∀ p ∈ all, p.ebitda_summary.isSome) := by
  unfold optimize at h
  cases hm : (optimizeGrid cfg br wr).mapM (fun bw =>
      simulate_policy (round2 bw.1) (round2 bw.2) cfg n (fun _ => 0)) with
  | error e =>
    rw [hm] at h
    exact absurd h (by simp [Except.map])
  | ok all0 =>
    rw [hm] at h
    simp only [Except.map] at h
    injection h with h
    unfold optimizeSelect at h
    cases hsb : selectBest all0 with
    | none =>
      rw [hsb] at h
      simp at h
    | some ip =>
      obtain ⟨j, q⟩ := ip
      rw [hsb] at h
      simp only [Prod.mk.injEq, Option.some.injEq] at h
      obtain ⟨hbest, hall⟩ := h
      obtain ⟨hget, hmax⟩ := selectBest_spec all0 j q hsb
      have hlt : j < all0.length := (List.get?_eq_some.mp hget).1
      have hisSome : ∀ p ∈ all0, p.ebitda_summary.isSome := by
        intro p hp
        obtain ⟨x, _, hfx⟩ := mapM_ok_forall _ _ all0 hm p hp
        exact simulate_summary_isSome hfx
      refine ⟨?_, ?_, ?_⟩
      · rw [← hall, ← hbest]
        exact List.mem_set all0 j hlt (rederive cfg q)
      · intro p hp
        rw [← hall] at hp
        rw [← hbest, rederive_ebitdaOf]
        rcases List.mem_or_eq_of_mem_set hp with hp0 | hp0
        · exact hmax p hp0
        · rw [hp0, rederive_ebitdaOf]
      · intro p hp
        rw [← hall] at hp
        rcases List.mem_or_eq_of_mem_set hp with hp0 | hp0
        · exact hisSome p hp0
        · rw [hp0, Option.isSome_iff_exists]
          have hq : q ∈ all0 := List.get?_mem hget
          obtain ⟨e, he⟩ := Option.isSome_iff_exists.mp (hisSome q hq)
          exact ⟨e, by rw [rederive_summary]; exact he⟩

unseal Rat.mul Rat.add Rat.sub Rat.inv in
/-- C2 witness: the optimizer evaluated on a one-cell grid. -/
theorem C2_witness :
    optimize wCfg (1, 1, 1) (0, 0, 1) 1 = .ok (some wBest, wOpt.2)
    ∧ wBest ∈ wOpt.2
    ∧ (∀ p ∈ wOpt.2, ebitdaOf p ≤ ebitdaOf wBest) :=
  ⟨rfl, (C2_optimize_argmax wCfg (1, 1, 1) (0, 0, 1) 1 wBest wOpt.2 rfl).1,
    (C2_optimize_argmax wCfg (1, 1, 1) (0, 0, 1) 1 wBest wOpt.2 rfl).2.1⟩

unseal Rat.mul Rat.add Rat.sub Rat.inv in
/-- C6 witness: the headcount invariants evaluated on the concrete run
`wRes`. -/
theorem C6_witness :
    (0 ≤ wCfg.min_coverage_fte)
    ∧ (∀ p ∈ wCfg.ramp_productivity, p ≤ 1)
    ∧ simulate_policy 0 0 wCfg 1 wShocks = .ok wRes
    ∧ (∀ mo ∈ wRes.months,
        mo.effective_fte ≤ mo.paid_fte ∧ wCfg.min_coverage_fte ≤ mo.paid_fte) :=
  ⟨by decide, by decide, rfl,
    C6_fte_invariants 0 0 wCfg 1 wShocks wRes (by decide) (by decide) rfl⟩

-- ════════════════════════════════════════════════════════════════════════════
-- ATTRITION STEP (C3)
-- ════════════════════════════════════════════════════════════════════════════

/-- When the month is not an active pre-flu month (or load-band mode is
off), the target phase changes neither headcount nor cohorts. -/
theorem targetPhase_frozen (b w : ℚ) (cfg : ClinicConfig) (st : SimState)
    (m : ℕ) (v : ℚ) (lead : ℕ)
    (hc : cfg.use_load_band = false ∨ (m % 12 + 1) ∉ activePreFluMonths cfg) :
    (targetPhase b w cfg st m v lead).paid = st.paid_fte
    ∧ (targetPhase b w cfg st m v lead).cohorts = st.ramp_cohorts := by
  rcases hc with hc | hc
  · simp [targetPhase, hc]
  · constructor <;>
      · simp only [targetPhase, targetPhaseCore]
        split
        · simp [hc]
        · rfl

/-- C3 step extraction (existential form): the appended month's attrition
fields in terms of the post-target-phase state. -/
theorem stepCore_attrition_shape (b w : ℚ) (cfg : ClinicConfig) (sh : ℕ → ℚ)
    (lead : ℕ) (st : SimState) (m : ℕ)
    (hmc : 0 ≤ cfg.min_coverage_fte)
    (hsch : schedNonneg st.scheduled_anchor_hires) :
    ∃ mo, (stepCore b w cfg sh lead st m).months = st.months ++ [mo]
      ∧ mo.effective_attrition_rate
          = cfg.monthly_attrition_rate * (1 + cfg.overload_attrition_factor *
              max 0 ((estLoad cfg (compute_demand m cfg (sh (m + 1))).visits
                  (targetPhase b w cfg st m
                    (compute_demand m cfg (sh (m + 1))).visits lead).paid
                  (targetPhase b w cfg st m
                    (compute_demand m cfg (sh (m + 1))).visits lead).cohorts
                - cfg.budgeted_patients_per_provider_per_day)
                / cfg.budgeted_patients_per_provider_per_day))
      ∧ mo.overload_attrition_delta
          = mo.effective_attrition_rate - cfg.monthly_attrition_rate
      ∧ mo.turnover_events
          = (targetPhase b w cfg st m
              (compute_demand m cfg (sh (m + 1))).visits lead).paid
            * mo.effective_attrition_rate
      ∧ max cfg.min_coverage_fte
          ((targetPhase b w cfg st m
              (compute_demand m cfg (sh (m + 1))).visits lead).paid
            - mo.turnover_events)
          ≤ mo.paid_fte
      ∧ 0 ≤ mo.paid_fte := by
  refine ⟨_, rfl, rfl, rfl, rfl, ?_, ?_⟩
  · refine le_trans (le_add_of_nonneg_right ?_)
      (hiringPhase_paid_ge _ _ _ _ _ _ _ _ _ _ _ _ _ _ _ _)
    split
    · exact targetPhase_sched b w cfg st m _ lead hsch _
    · exact le_rfl
  · refine le_trans hmc
      (le_trans (le_trans (le_max_left _ _) (le_add_of_nonneg_right ?_))
        (hiringPhase_paid_ge _ _ _ _ _ _ _ _ _ _ _ _ _ _ _ _))
    split
    · exact targetPhase_sched b w cfg st m _ lead hsch _
    · exact le_rfl

/-- C3 (amended): for every monthly step, the recorded attrition rate is the
base monthly rate scaled by the overload excess of the workload estimated
from the post-target-phase headcount (which equals the carried-in headcount
except when an active pre-flu bridge hire was applied first);
`turnover_events` is that headcount times the rate; and the recorded
headcount is at least the attrition floor `max(min_coverage_fte,
paid − attrition_events)`, hence nonnegative when the floor is. -/
theorem C3_attrition_step_amended (b w : ℚ) (cfg : ClinicConfig) (sh : ℕ → ℚ)
    (lead : ℕ) (st : SimState) (m : ℕ)
    (_hb : 0 < cfg.budgeted_patients_per_provider_per_day)
    (hmc : 0 ≤ cfg.min_coverage_fte)
    (hsch : schedNonneg st.scheduled_anchor_hires) :
    (stepCore b w cfg sh lead st m).months
      = st.months ++ [(stepCore b w cfg sh lead st m).months.getLastD default]
    ∧ ((stepCore b w cfg sh lead st m).months.getLastD default).effective_attrition_rate
        = cfg.monthly_attrition_rate * (1 + cfg.overload_attrition_factor *
            max 0 ((estLoad cfg (compute_demand m cfg (sh (m + 1))).visits
                (targetPhase b w cfg st m
                  (compute_demand m cfg (sh (m + 1))).visits lead).paid
                (targetPhase b w cfg st m
                  (compute_demand m cfg (sh (m + 1))).visits lead).cohorts
              - cfg.budgeted_patients_per_provider_per_day)
              / cfg.budgeted_patients_per_provider_per_day))
    ∧ ((stepCore b w cfg sh lead st m).months.getLastD default).overload_attrition_delta
        = ((stepCore b w cfg sh lead st m).months.getLastD default).effective_attrition_rate
          - cfg.monthly_attrition_rate
    ∧ ((stepCore b w cfg sh lead st m).months.getLastD default).turnover_events
        = (targetPhase b w cfg st m
            (compute_demand m cfg (sh (m + 1))).visits lead).paid
          * ((stepCore b w cfg sh lead st m).months.getLastD default).effective_attrition_rate
    ∧ ((cfg.use_load_band = false ∨ (m % 12 + 1) ∉ activePreFluMonths cfg) →
        (targetPhase b w cfg st m
          (compute_demand m cfg (sh (m + 1))).visits lead).paid = st.paid_fte
        ∧ (targetPhase b w cfg st m
            (compute_demand m cfg (sh (m + 1))).visits lead).cohorts = st.ramp_cohorts)
    ∧ max cfg.min_coverage_fte
        ((targetPhase b w cfg st m
            (compute_demand m cfg (sh (m + 1))).visits lead).paid
          - ((stepCore b w cfg sh lead st m).months.getLastD default).turnover_events)
        ≤ ((stepCore b w cfg sh lead st m).months.getLastD default).paid_fte
    ∧ 0 ≤ ((stepCore b w cfg sh lead st m).months.getLastD default).paid_fte := by
  obtain ⟨mo, hmo, h1, h2, h3, h4, h5⟩ :=
    stepCore_attrition_shape b w cfg sh lead st m hmc hsch
  have hlast : (stepCore b w cfg sh lead st m).months.getLastD default = mo := by
    rw [hmo, List.getLastD_concat]
  rw [hlast, hmo]
  exact ⟨rfl, h1, h2, h3, targetPhase_frozen b w cfg st m _ lead, h4, h5⟩

-- ════════════════════════════════════════════════════════════════════════════
-- DEMAND FORMULA (C4)
-- ════════════════════════════════════════════════════════════════════════════

/-- The seasonal multiplier of month index `m` is one plus the quarterly
impact of its calendar quarter. -/
theorem seasonality_index_getD (cfg : ClinicConfig) (m : ℕ) :
    cfg.seasonality_index.getD (m % 12) 0
      = 1 + cfg.quarterly_volume_impact.getD (MONTH_TO_QUARTER.getD (m % 12) 0) 0 := by
  have hcal : m % 12 < 12 := Nat.mod_lt _ (by norm_num)
  rw [ClinicConfig.seasonality_index, List.getD_eq_getElem?_getD, List.getElem?_map,
    List.getElem?_range hcal]
  rfl

unseal Rat.mul Rat.add Rat.sub Rat.inv in
/-- C4: `compute_demand` returns `visits = base × seasonal × peak_factor ×
growth^m × (1 + shock)`, providers as visits over budget, and FTE as
providers times the coverage ratio `operating_days / contracted shifts`;
with the spec's concrete figures, the ratio is 7/3 and the baseline FTE
requirement is 140/27 ≈ 5.19 at 20/9 ≈ 2.22 concurrent providers. -/
theorem C4_demand_formula :
    (∀ (cfg : ClinicConfig) (m : ℕ) (shock : ℚ),
      0 < cfg.fte_shifts_per_week →
      (compute_demand m cfg shock).visits
          = cfg.base_visits_per_day
            * (1 + cfg.quarterly_volume_impact.getD (MONTH_TO_QUARTER.getD (m % 12) 0) 0)
            * cfg.peak_factor * cfg.monthly_growth_factor ^ m * (1 + shock)
        ∧ (compute_demand m cfg shock).providers
            = (compute_demand m cfg shock).visits
              / cfg.budgeted_patients_per_provider_per_day
        ∧ (compute_demand m cfg shock).fte_required
            = (compute_demand m cfg shock).providers
              * (cfg.operating_days_per_week / cfg.fte_shifts_per_week))
    ∧ (demoCfg.fte_per_shift_slot = 7 / 3
      ∧ (compute_demand 0 demoCfg 0).providers = 20 / 9
      ∧ (compute_demand 0 demoCfg 0).fte_required = 140 / 27
      ∧ |(140 / 27 : ℚ) - 519 / 100| < 1 / 100) := by
  constructor
  · intro cfg m shock hft
    refine ⟨?_, rfl, ?_⟩
    · show cfg.base_visits_per_day * cfg.seasonality_index.getD (m % 12) 0
          * cfg.peak_factor * cfg.monthly_growth_factor ^ m * (1 + shock) = _
      rw [seasonality_index_getD]
    · show (compute_demand m cfg shock).providers * cfg.fte_per_shift_slot = _
      rw [ClinicConfig.fte_per_shift_slot, if_neg (not_le.mpr hft)]
  · exact ⟨by decide, by decide, by decide, by decide⟩

unseal Rat.mul Rat.add Rat.sub Rat.inv in
/-- C4 witness: the demand formula evaluated at a concrete month and
shock. -/
theorem C4_witness :
    ((0 : ℚ) < demoCfg.fte_shifts_per_week)
    ∧ (compute_demand 5 demoCfg (1 / 10)).visits
        = demoCfg.base_visits_per_day
          * (1 + demoCfg.quarterly_volume_impact.getD (MONTH_TO_QUARTER.getD (5 % 12) 0) 0)
          * demoCfg.peak_factor * demoCfg.monthly_growth_factor ^ 5 * (1 + 1 / 10) :=
  ⟨by decide, (C4_demand_formula.1 demoCfg 5 (1 / 10) (by decide)).1⟩

-- ════════════════════════════════════════════════════════════════════════════
-- C3 COUNTEREXAMPLE AND WITNESS
-- ════════════════════════════════════════════════════════════════════════════

set_option maxRecDepth 10000 in
unseal Rat.mul Rat.add Rat.sub Rat.inv in
/-- C3 counterexample: in September of year 1 of the `cexCfg` run a pre-flu
bridge hire is applied before the attrition block, so the recorded attrition
rate does not equal the claimed formula evaluated at the carried-in
headcount (the previous month's recorded `paid_fte`; the cohort list is
empty since `ramp_months = 0`), and `turnover_events` is not the carried-in
headcount times the recorded rate. -/
theorem C3_counterexample :
    simulate_policy 0 0 cexCfg 9 wShocks = .ok cexRes
    ∧ cexCfg.use_load_band = true
    ∧ (8 % 12 + 1) ∈ activePreFluMonths cexCfg
    ∧ (cexRes.months.getD 8 default).effective_attrition_rate
        ≠ cexCfg.monthly_attrition_rate * (1 + cexCfg.overload_attrition_factor *
            max 0 ((estLoad cexCfg (compute_demand 8 cexCfg 0).visits
                (cexRes.months.getD 7 default).paid_fte []
              - cexCfg.budgeted_patients_per_provider_per_day)
              / cexCfg.budgeted_patients_per_provider_per_day))
    ∧ (cexRes.months.getD 8 default).turnover_events
        ≠ (cexRes.months.getD 7 default).paid_fte
          * (cexRes.months.getD 8 default).effective_attrition_rate :=
  ⟨rfl, rfl, by decide, by decide, by decide⟩

unseal Rat.mul Rat.add Rat.sub Rat.inv in
/-- C3 witness: the amended attrition step evaluated at the initial state of
the `wCfg` run. -/
theorem C3_witness :
    (0 < wCfg.budgeted_patients_per_provider_per_day)
    ∧ (0 ≤ wCfg.min_coverage_fte)
    ∧ schedNonneg (initState 0 wCfg).scheduled_anchor_hires
    ∧ ((stepCore 0 0 wCfg wShocks (leadMonthsOf wCfg) (initState 0 wCfg) 0).months.getLastD
          default).turnover_events
        = (targetPhase 0 0 wCfg (initState 0 wCfg) 0
            (compute_demand 0 wCfg (wShocks 1)).visits (leadMonthsOf wCfg)).paid
          * ((stepCore 0 0 wCfg wShocks (leadMonthsOf wCfg) (initState 0 wCfg) 0).months.getLastD
              default).effective_attrition_rate :=
  ⟨by decide, by decide, by intro y; simp [initState],
    (C3_attrition_step_amended 0 0 wCfg wShocks (leadMonthsOf wCfg)
      (initState 0 wCfg) 0 (by decide) (by decide)
      (by intro y; simp [initState])).2.2.2.1⟩

-- ════════════════════════════════════════════════════════════════════════════
-- C8, C9, C10
-- ════════════════════════════════════════════════════════════════════════════

unseal Rat.mul Rat.add Rat.sub Rat.inv in
/-- C8: a hire at the small-FTE threshold inside the peak season with no
nearby larger hire is returned by `consolidate_hire_events` unchanged — its
mode stays a formal requisition instead of becoming `per_diem`, contrary to
the function's own docstring (rule 1 relabels unconditionally). -/
theorem C8_small_peak_hire_kept :
    consolidate_hire_events [cexHire] (1 / 5) [11, 12, 1, 2, 3] = [cexHire]
    ∧ cexHire.fte_hired ≤ 1 / 5
    ∧ cexHire.calendar_month ∈ [11, 12, 1, 2, 3]
    ∧ cexHire.mode = "winter_ramp" :=
  ⟨by decide, by decide, by decide, rfl⟩

/-- Configuration with zero operating days: the coverage denominator
`fte_per_shift_slot` is zero, exercising the sentinel-workload guard. -/
def c9Cfg : ClinicConfig := { wCfg with operating_days_per_week := 0 }

/-- The 1-month run on `c9Cfg`. -/
def c9Res : PolicyResult :=
  match simulate_policy 0 0 c9Cfg 1 wShocks with
  | .ok r => r
  | .error _ => default

unseal Rat.mul Rat.add Rat.sub Rat.inv in
/-- C9: in legacy explicit-policy mode (`use_load_band = False`, budgeted
throughput positive) the first simulated month reads the never-assigned
local `_pre_flu_handled`, so `simulate_policy` raises instead of returning a
result — the claimed totality fails.  The division guards themselves are
present: a month with zero providers on the floor records the sentinel
workload 9999 rather than dividing by zero. -/
theorem C9_legacy_mode_raises :
    simulate_policy 5 5 legacyCfg 1 wShocks
      = .error "UnboundLocalError: local variable _pre_flu_handled referenced before assignment"
    ∧ legacyCfg.use_load_band = false
    ∧ 0 < legacyCfg.budgeted_patients_per_provider_per_day
    ∧ simulate_policy 0 0 c9Cfg 1 wShocks = .ok c9Res
    ∧ (c9Res.months.getD 0 default).providers_on_floor = 0
    ∧ (c9Res.months.getD 0 default).patients_per_provider_per_shift = 9999 :=
  ⟨rfl, rfl, by decide, rfl, by decide, by decide⟩

/-- C10: in load-band mode the initial paid headcount is the month-0 demand
at the midpoint of the load band, and the whole initial simulation state is
independent of the `base_fte` (and `winter_fte`) arguments. -/
theorem C10_seed_ignores_policy (cfg : ClinicConfig)
    (h : cfg.use_load_band = true) (b1 b2 : ℚ) :
    (initState b1 cfg).paid_fte
        = fte_for_load_target (compute_demand 0 cfg 0).visits
            ((cfg.load_band_lo + cfg.load_band_hi) / 2) cfg
    ∧ initState b1 cfg = initState b2 cfg := by
  constructor
  · simp [initState, h]
  · simp [initState, h]

/-- C10 witness: identical seeds for two different policy arguments. -/
theorem C10_witness :
    wCfg.use_load_band = true
    ∧ (initState 3 wCfg).paid_fte
        = fte_for_load_target (compute_demand 0 wCfg 0).visits
            ((wCfg.load_band_lo + wCfg.load_band_hi) / 2) wCfg
    ∧ initState 3 wCfg = initState 7 wCfg :=
  ⟨rfl, (C10_seed_ignores_policy wCfg rfl 3 7).1,
    (C10_seed_ignores_policy wCfg rfl 3 7).2⟩
